import Mathlib

/-!
Verification development for the storage part of `pyanaconda/kickstart.py`:
a shallow embedding of the device-reference resolver (`deviceMatches`),
the per-command handlers (`PartitionData.execute`, `RaidData.execute`,
`LogVolData.execute`, `VolGroupData.execute`, `BTRFSData.execute`,
`AutoPart.execute`, `ClearPart.execute`), the shared encryption-wrapping
block, and the fixed-order orchestrator `doKickstartStorage`, together
with theorems checking the specification's claims against this embedding.

External collaborators (blivet device tree operations, udev, escrow
download) are embedded either as simple list-based models or as explicit
function parameters collected in the `Externals` record; each such model
is documented at its definition.
-/

/-- Error raised by the kickstart handlers. `kickstartValueError` embeds
`pykickstart.errors.KickstartValueError` (always raised together with
`formatErrorMsg`), `kickstartError` embeds `pykickstart.errors.KickstartError`. -/
inductive KSError where
  | kickstartValueError (msg : String)
  | kickstartError (msg : String)
deriving DecidableEq

/-- The exception class of an error, forgetting the message. -/
inductive KSErrorKind where
  | valueError
  | plainError
deriving DecidableEq

/-- Map an error to its exception class. -/
def KSError.kind : KSError → KSErrorKind
  | .kickstartValueError _ => .valueError
  | .kickstartError _ => .plainError

/-- The message carried by an error. -/
def KSError.msg : KSError → String
  | .kickstartValueError m => m
  | .kickstartError m => m

/-- Boolean check that an `Except` result is a success. -/
def exceptOk {ε α : Type} : Except ε α → Bool
  | .ok _ => true
  | .error _ => false

/-- List-of-characters test that `p` is an initial segment of `s`
(embeds Python's `str.startswith` together with indexing `s[0]`). -/
def charsStart : List Char → List Char → Bool
  | [], _ => true
  | _ :: _, [] => false
  | a :: as, b :: bs => a = b && charsStart as bs

/-- String version of `charsStart`: `strStarts s p` embeds `s.startswith(p)`. -/
def strStarts (s p : String) : Bool := charsStart p.toList s.toList

/-- Fuel-bounded fnmatch-style glob matcher over character lists,
supporting `*` and `?`; embeds the matching used by
`udev_resolve_glob` (external collaborator `blivet.udev`). -/
def globMatchAux : Nat → List Char → List Char → Bool
  | 0, _, _ => false
  | _ + 1, [], [] => true
  | _ + 1, [], _ :: _ => false
  | f + 1, '*' :: ps, [] => globMatchAux f ps []
  | f + 1, '*' :: ps, c :: cs =>
    globMatchAux f ps (c :: cs) || globMatchAux f ('*' :: ps) cs
  | _ + 1, '?' :: _, [] => false
  | f + 1, '?' :: ps, _ :: cs => globMatchAux f ps cs
  | _ + 1, _ :: _, [] => false
  | f + 1, q :: ps, c :: cs => q = c && globMatchAux f ps cs

/-- Glob match of pattern `p` against string `s`, with enough fuel for
`globMatchAux` to finish. -/
def globMatch (p s : String) : Bool :=
  globMatchAux (p.length + s.length + 1) p.toList s.toList

/-- Whether a pattern string contains a glob metacharacter. -/
def hasGlobChar (p : String) : Bool := p.toList.any (fun c => c = '*' || c = '?')

/-- Model of the external `udev.udev_resolve_glob`: the devices of the
live inventory whose path matches the glob pattern. -/
def udevResolveGlob (inventory : List String) (full_spec : String) : List String :=
  inventory.filter (fun d => globMatch full_spec d)

/-- Model of the external `udev.udev_resolve_devspec`: the direct lookup
of a single device (at most one match), `none` when nothing matches. -/
def udevResolveDevspec (inventory : List String) (full_spec : String) : Option String :=
  inventory.find? (fun d => d == full_spec)

/-- Normalization of a device spec into the `/dev` namespace, from
`deviceMatches` lines 169-171: a spec not starting with `/dev/` gets
`/dev/` prepended (`os.path.normpath` is the identity on the already
normal paths produced this way). -/
def normalizeSpec (spec : String) : String :=
  if strStarts spec "/dev/" then spec else "/dev/" ++ spec

/-- Embedding of `deviceMatches` (kickstart.py lines 168-181) over a given
device inventory: union of the glob expansion and the direct lookup, the
direct match appended only if not already present. -/
def deviceMatches (inventory : List String) (spec : String) : List String :=
  let full_spec := normalizeSpec spec
  let globbed := udevResolveGlob inventory full_spec
  let dev := udevResolveDevspec inventory full_spec
  match dev with
  | none => globbed
  | some d => if d ∈ globbed then globbed else globbed ++ [d]

/-- A device of the abstract device tree owned by the external storage
engine (blivet).  Each field embeds the attribute of the same role on a
blivet device: `fmtType` is `device.format.type` (`""` embeds Python's
`None`), `fmtMountpoint` is `device.format.mountpoint`, `fmtHidden` is
`device.format.hidden`, `isProtected` is `device.protected`, `devKind`
tags the device class (`"disk"`, `"partition"`, `"mdarray"`, `"vg"`,
`"lv"`, `"btrfs"`, `"luks"`, `"tmpfs"`), `reqName` is the originally
requested name `req_name`, `peSize` is the volume-group physical extent
size, and `parents` holds the names of the parent devices. -/
structure Dev where
  name : String
  currentSize : Nat := 0
  fmtType : String := ""
  fmtMountpoint : String := ""
  fmtLabel : String := ""
  fmtMountopts : String := ""
  fmtPassphrase : String := ""
  fmtCipher : String := ""
  fmtEscrow : Option String := none
  fmtBackup : Bool := false
  fmtHidden : Bool := false
  isProtected : Bool := false
  partitionable : Bool := true
  partitioned : Bool := true
  devKind : String := ""
  reqName : Option String := none
  peSize : Nat := 0
  reservedSpace : Nat := 0
  reservedPercent : Nat := 0
  parents : List String := []
deriving DecidableEq

/-- An action registered on the device tree via
`devicetree.registerAction` / `storage.createDevice` /
`storage.destroyDevice` (the blivet action classes). -/
inductive DeviceAction where
  | createDevice (dev : String)
  | destroyDevice (dev : String)
  | resizeDevice (dev : String) (size : Nat)
  | createFormat (dev : String)
  | destroyFormat (dev : String)
  | resizeFormat (dev : String) (size : Nat)
deriving DecidableEq

/-- Whether an action destroys a device. -/
def DeviceAction.isDestroyDevice : DeviceAction → Bool
  | .destroyDevice _ => true
  | _ => false

/-- The device-tree-and-bookkeeping part of the run state: the abstract
device tree (`storage.devicetree.devices`), the registered actions (in
registration order), the `storage.doAutoPart` flag, the id counter
`storage.nextID`, and the alias table `ksdata.onPart`. -/
structure CoreState where
  devicetree : List Dev := []
  actions : List DeviceAction := []
  doAutoPart : Bool := true
  nextID : Nat := 0
  onPart : List (String × String) := []
deriving DecidableEq

/-- The full run state threaded through the orchestrator: the core
state plus the run-scoped storage attributes written by the handlers
(`storage.encryptionPassphrase`, `storage.escrowCertificates`, the
clearpart configuration and the autopart attributes). -/
structure St where
  core : CoreState := {}
  encryptionPassphrase : String := ""
  escrowCertificates : List (String × String) := []
  clearPartType : Int := 0
  clearPartDisks : List String := []
  clearPartDevices : List String := []
  initializeDisks : Bool := false
  encryptedAutoPart : Bool := false
  encryptionCipher : String := ""
  autoPartEscrowCert : Option String := none
  autoPartAddBackupPassphrase : Bool := false
  autoPartType : Option Int := none
deriving DecidableEq

instance : Inhabited St := ⟨{}⟩

/-- The external collaborators of the handlers, collected as explicit
parameters: values returned by `swap.swapSuggestion`, the default
filesystem types, the `getFormat(type).type` support test, whether the
blivet resize/`newMDArray` action constructors accept their arguments
(they raise `ValueError` otherwise), the EDD bios-disk map (values
already hex-formatted as the source formats them with a percent-x),
platform flags, connectivity, the escrow certificate download, the
possible physical extent sizes, and the blivet global operations
(`clearPartitions`, `setDefaultPartitioning` with `doAutoPartition`,
`doPartitioning`, `growLVM`) together with the bootloader steps, all of
which act only on the device tree. -/
structure Externals where
  swapSuggestion : Nat := 0
  defaultFSType : String := "ext4"
  defaultBootFSType : String := "ext4"
  supported : String → Bool := fun _ => true
  resizeActionsValid : Bool := true
  newMDArrayValid : Bool := true
  newMDArrayError : String := ""
  eddDict : List (String × String) := []
  isMactel : Bool := false
  shouldClear : String → Bool := fun _ => false
  stage2Mdarray : Bool := false
  connected : Bool := false
  fetchCert : String → String := fun _ => ""
  possiblePhysicalExtents : List Nat := []
  clearPartitions : List Dev → List Dev := id
  setDefaultPartitioning : List Dev → List Dev := id
  doAutoPartition : List Dev → Except KSError (List Dev) := fun t => .ok t
  doPartitioning : List Dev → Except KSError (List Dev) := fun t => .ok t
  growLVM : List Dev → Except KSError (List Dev) := fun t => .ok t
  bootloaderStep : List Dev → Except KSError Unit := fun _ => .ok ()
  setUpBootLoader : List Dev → Except KSError Unit := fun _ => .ok ()

/-- Lookup of a device by name, embedding
`devicetree.getDeviceByName`. -/
def getDeviceByName (tree : List Dev) (n : String) : Option Dev :=
  tree.find? (fun d => d.name == n)

/-- Model of the external `devicetree.resolveDevice` restricted to the
name lookup the handlers rely on (blivet additionally handles
`LABEL=`/`UUID=` specs, which the kickstart handlers never produce
here). -/
def resolveDevice (tree : List Dev) (spec : String) : Option Dev :=
  getDeviceByName tree spec

/-- Embedding of `lookupAlias` (lines 183-188): linear scan for a device
whose originally requested name equals the alias. -/
def lookupAlias (tree : List Dev) (a : String) : Option Dev :=
  tree.find? (fun d => d.reqName == some a)

/-- Embedding of `devicetree.getChildren`: the devices having the given
device among their parents. -/
def getChildren (tree : List Dev) (d : Dev) : List Dev :=
  tree.filter (fun c => c.parents.contains d.name)

/-- Insert-or-replace into an association list; embeds a Python dict
assignment `m[k] = v`. -/
def setAssoc (m : List (String × String)) (k v : String) : List (String × String) :=
  match m with
  | [] => [(k, v)]
  | (k2, v2) :: rest => if k2 = k then (k, v) :: rest else (k2, v2) :: setAssoc rest k v

/-- Embedding of `devicetree.registerAction`. -/
def registerAction (core : CoreState) (a : DeviceAction) : CoreState :=
  { core with actions := core.actions ++ [a] }

/-- Embedding of `storage.createDevice`: the device enters the tree and
a create action is registered; the id counter advances as blivet does on
device construction. -/
def createDevice (core : CoreState) (dev : Dev) : CoreState :=
  { core with devicetree := core.devicetree ++ [dev],
              actions := core.actions ++ [.createDevice dev.name],
              nextID := core.nextID + 1 }

/-- Embedding of `storage.destroyDevice`: the device leaves the tree and
a destroy action is registered. -/
def destroyDevice (core : CoreState) (n : String) : CoreState :=
  { core with devicetree := core.devicetree.filter (fun d => d.name ≠ n),
              actions := core.actions ++ [.destroyDevice n] }

/-- Update the named device in place (a Python attribute assignment on
the device object held by the tree). -/
def updateDevice (core : CoreState) (n : String) (f : Dev → Dev) : CoreState :=
  { core with devicetree := core.devicetree.map (fun d => if d.name = n then f d else d) }

/-- Embedding of the `storage.mountpoints` dict lookup: the first device
of the tree claiming the mount point. -/
def mountpointsLookup (tree : List Dev) (mp : String) : Option Dev :=
  tree.find? (fun d => d.fmtMountpoint == mp)

/-- Number of devices of the tree claiming the mount point. -/
def claimCount (tree : List Dev) (mp : String) : Nat :=
  tree.countP (fun d => d.fmtMountpoint == mp)

/-- Embedding of the shared block "If a previous device has claimed this
mount point, delete the old one" (lines 402-409, 837-844, 1111-1118,
1266-1273): on a non-empty mount point, destroy the previous claimant if
present; the `KeyError` branch of the source is the `none` case. -/
def destroyPriorClaimant (core : CoreState) (mountpoint : String) : CoreState :=
  if mountpoint ≠ "" then
    match mountpointsLookup core.devicetree mountpoint with
    | some dev => destroyDevice core dev.name
    | none => core
  else core

/-- Fuel-bounded test that device `d` (transitively) depends on the
device named `target`; embeds membership in `storage.deviceDeps`. -/
def dependsOn (tree : List Dev) : Nat → Dev → String → Bool
  | 0, _, _ => false
  | f + 1, d, target =>
    d.parents.contains target ||
      d.parents.any (fun p =>
        match getDeviceByName tree p with
        | some pd => dependsOn tree f pd target
        | none => false)

/-- Embedding of `removeExistingFormat` (lines 192-200): destroy every
device depending on `device` (the source peels leaves from
`storage.deviceDeps(device)` until none is left), then register a
destroy-format action on the device itself. -/
def removeExistingFormat (core : CoreState) (device : Dev) : CoreState :=
  let deps := core.devicetree.filter
    (fun d => dependsOn core.devicetree core.devicetree.length d device.name)
  let core := deps.foldl (fun c d => destroyDevice c d.name) core
  registerAction core (.destroyFormat device.name)

/-- Register an `ActionCreateFormat(device, fmt)` (the preexisting-device
branches of the handlers): the action is recorded and the device's format
attributes become those of the new format object built by `getFormat`. -/
def registerCreateFormat (core : CoreState) (n : String) (ty mountpoint label mountopts : String) :
    CoreState :=
  updateDevice (registerAction core (.createFormat n)) n
    (fun d => { d with fmtType := ty, fmtMountpoint := mountpoint,
                       fmtLabel := label, fmtMountopts := mountopts })

/-- Embedding of `getEscrowCertificate` (lines 141-166): empty URL yields
no certificate; a cached URL is reused; a network URL without
connectivity raises `KickstartError`; otherwise the certificate is
fetched (the external download, modelled as always succeeding via
`Externals.fetchCert`) and cached. -/
def getEscrowCertificate (ext : Externals) (escrowCerts : List (String × String)) (url : String) :
    Except KSError (Option String × List (String × String)) :=
  if url = "" then .ok (none, escrowCerts)
  else
    match escrowCerts.lookup url with
    | some c => .ok (some c, escrowCerts)
    | none =>
      if (¬ strStarts url "/" ∧ ¬ strStarts url "file:") ∧ ¬ ext.connected then
        .error (.kickstartError ("Escrow certificate " ++ url ++ " requires the network."))
      else
        let c := ext.fetchCert url
        .ok (some c, setAssoc escrowCerts url c)

/-- The fields of a `part`/`partition` kickstart line used by
`PartitionData.execute` (class `F18_PartData`). -/
structure PartDataKS where
  mountpoint : String := ""
  size : Nat := 0
  grow : Bool := false
  maxSizeMB : Nat := 0
  format : Bool := true
  onPart : String := ""
  onbiosdisk : String := ""
  disk : String := ""
  fstype : String := ""
  resize : Bool := false
  encrypted : Bool := false
  passphrase : String := ""
  escrowcert : String := ""
  backuppassphrase : Bool := false
  cipher : String := ""
  label : String := ""
  fsopts : String := ""
  fsprofile : String := ""
  recommended : Bool := false
  hibernation : Bool := false
  primOnly : Bool := false
deriving DecidableEq

/-- The fields of a `raid` kickstart line used by `RaidData.execute`
(class `F18_RaidData`). -/
structure RaidDataKS where
  device : String := ""
  mountpoint : String := ""
  fstype : String := ""
  format : Bool := true
  preexist : Bool := false
  level : String := ""
  spares : Nat := 0
  members : List String := []
  encrypted : Bool := false
  passphrase : String := ""
  escrowcert : String := ""
  cipher : String := ""
  backuppassphrase : Bool := false
  label : String := ""
  fsprofile : String := ""
  fsopts : String := ""
deriving DecidableEq

/-- The fields of a `logvol` kickstart line used by `LogVolData.execute`
(class `F20_LogVolData`). -/
structure LogVolDataKS where
  name : String := ""
  vgname : String := ""
  mountpoint : String := ""
  size : Nat := 0
  format : Bool := true
  resize : Bool := false
  preexist : Bool := false
  grow : Bool := false
  maxSizeMB : Nat := 0
  percent : Int := 0
  encrypted : Bool := false
  passphrase : String := ""
  escrowcert : String := ""
  cipher : String := ""
  backuppassphrase : Bool := false
  fstype : String := ""
  label : String := ""
  fsopts : String := ""
  fsprofile : String := ""
  recommended : Bool := false
  hibernation : Bool := false
  thin_pool : Bool := false
  thin_volume : Bool := false
  pool_name : String := ""
  metadata_size : Nat := 0
  chunk_size : Nat := 0
deriving DecidableEq

/-- The fields of a `volgroup` kickstart line used by
`VolGroupData.execute` (class `FC16_VolGroupData`). -/
structure VolGroupKS where
  vgname : String := ""
  physvols : List String := []
  format : Bool := true
  preexist : Bool := false
  pesize : Nat := 32768
  reserved_space : Nat := 0
  reserved_percent : Nat := 0
deriving DecidableEq

/-- The fields of a `btrfs` kickstart line used by `BTRFSData.execute`
(class `F17_BTRFSData`). -/
structure BTRFSKS where
  devices : List String := []
  subvol : Bool := false
  name : String := ""
  label : String := ""
  mountpoint : String := ""
  preexist : Bool := false
  metaDataLevel : String := ""
  dataLevel : String := ""
deriving DecidableEq

/-- The fields of the `autopart` command used by `AutoPart.execute`
(class `F20_AutoPart`). -/
structure AutoPartKS where
  autopart : Bool := false
  encrypted : Bool := false
  passphrase : String := ""
  cipher : String := ""
  escrowcert : String := ""
  backuppassphrase : Bool := false
  type : Option Int := none
deriving DecidableEq

/-- The fields of the `clearpart` command used by `ClearPart.execute`
(class `F17_ClearPart`, after `parse` expanded the drive and device
specs). -/
structure ClearPartKS where
  type : Int := 0
  drives : List String := []
  devices : List String := []
  initAll : Bool := false
deriving DecidableEq

/-- Embedding of the duplicated shrink/grow resize block of
`LogVolData.execute` (lines 771-787) and `PartitionData.execute`
(lines 1025-1041): requested size strictly below the current size
registers resize-format then resize-device; otherwise resize-device then
resize-format; a `ValueError` from the blivet action constructors
(`Externals.resizeActionsValid = false`) is turned into
`KickstartValueError`. -/
def registerResizeActions (ext : Externals) (core : CoreState) (dev : Dev) (size : Nat) :
    Except KSError CoreState :=
  if size < dev.currentSize then
    if ext.resizeActionsValid then
      .ok (registerAction (registerAction core (.resizeFormat dev.name size)) (.resizeDevice dev.name size))
    else
      .error (.kickstartValueError
        ("Invalid target size (" ++ toString size ++ ") for device " ++ dev.name))
  else
    if ext.resizeActionsValid then
      .ok (registerAction (registerAction core (.resizeDevice dev.name size)) (.resizeFormat dev.name size))
    else
      .error (.kickstartValueError
        ("Invalid target size (" ++ toString size ++ ") for device " ++ dev.name))

/-- Embedding of the shared encryption block ending
`LogVolData.execute` (lines 870-893), `PartitionData.execute`
(lines 1123-1146) and `RaidData.execute` (lines 1282-1305), run when
`self.encrypted`: the first explicit passphrase of the run becomes
`storage.encryptionPassphrase`; the escrow certificate is fetched or
reused; the target device's format becomes the LUKS format built from
the request's own passphrase while the previous format (with its mount
point) moves onto a new `LUKSDevice` whose sole parent is the target,
which is then created. -/
def encryptionBlock (ext : Externals) (st : St) (target : String)
    (passphrase cipher escrowcert : String) (backup : Bool) : Except KSError St :=
  let st := if passphrase ≠ "" ∧ st.encryptionPassphrase = "" then
      { st with encryptionPassphrase := passphrase }
    else st
  match getEscrowCertificate ext st.escrowCertificates escrowcert with
  | .error e => .error e
  | .ok (cert, certs) =>
    let st := { st with escrowCertificates := certs }
    match getDeviceByName st.core.devicetree target with
    | none => .ok st
    | some dev =>
      let luksdev : Dev := { name := "luks" ++ toString st.core.nextID,
                             devKind := "luks",
                             fmtType := dev.fmtType,
                             fmtMountpoint := dev.fmtMountpoint,
                             fmtLabel := dev.fmtLabel,
                             fmtMountopts := dev.fmtMountopts,
                             parents := [target] }
      let core := updateDevice st.core target
        (fun d => { d with fmtType := "luks", fmtPassphrase := passphrase,
                           fmtMountpoint := "", fmtLabel := "", fmtMountopts := "",
                           fmtCipher := cipher, fmtEscrow := cert, fmtBackup := backup })
      let core := createDevice core luksdev
      .ok { st with core := core }

/-- Embedding of the shared member-resolution steps of the raid,
volgroup and btrfs member loops (lines 1216-1226, 1445-1455, 363-374):
resolve the member, fall back to the `onPart` alias and then to
`lookupAlias`, and step down to the only child when the resolved device
carries a LUKS format (an empty child list leaves no device, the
`IndexError` branch). -/
def resolveMemberDev (tree : List Dev) (onPart : List (String × String)) (member : String) :
    Option Dev :=
  let dev := match resolveDevice tree member with
    | some d => some d
    | none =>
      let mem := (onPart.lookup member).getD member
      match resolveDevice tree mem with
      | some d => some d
      | none => lookupAlias tree member
  match dev with
  | some d => if d.fmtType = "luks" then (getChildren tree d).head? else some d
  | none => none

/-- Embedding of the RAID member checks (lines 1228-1234): a resolved
member whose format is not `mdmember` raises, then an unresolved member
raises; both raise `KickstartValueError`. -/
def raidMemberCheck (tree : List Dev) (onPart : List (String × String)) (member : String) :
    Except KSError Dev :=
  match resolveMemberDev tree onPart member with
  | some d =>
    if d.fmtType ≠ "mdmember" then
      .error (.kickstartValueError
        ("RAID member " ++ member ++ " has incorrect format (" ++ d.fmtType ++ ")"))
    else .ok d
  | none =>
    .error (.kickstartValueError
      ("Tried to use undefined partition " ++ member ++ " in RAID specification"))

/-- Embedding of the volume-group physical-volume checks
(lines 1457-1461), same shape as `raidMemberCheck` with format
`lvmpv`. -/
def vgPVCheck (tree : List Dev) (onPart : List (String × String)) (pv : String) :
    Except KSError Dev :=
  match resolveMemberDev tree onPart pv with
  | some d =>
    if d.fmtType ≠ "lvmpv" then
      .error (.kickstartValueError
        ("Physical Volume " ++ pv ++ " has incorrect format (" ++ d.fmtType ++ ")"))
    else .ok d
  | none =>
    .error (.kickstartValueError
      ("Tried to use undefined partition " ++ pv ++ " in Volume Group specification"))

/-- Embedding of the BTRFS member checks (lines 376-380), same shape as
`raidMemberCheck` with format `btrfs`. -/
def btrfsMemberCheck (tree : List Dev) (onPart : List (String × String)) (member : String) :
    Except KSError Dev :=
  match resolveMemberDev tree onPart member with
  | some d =>
    if d.fmtType ≠ "btrfs" then
      .error (.kickstartValueError
        ("BTRFS partition " ++ member ++ " has incorrect format (" ++ d.fmtType ++ ")"))
    else .ok d
  | none =>
    .error (.kickstartValueError
      ("Tried to use undefined partition " ++ member ++ " in BTRFS volume specification"))

/-- The values `LogVolData.execute` computes before its format branches
(lines 717-759): the core state with autopart disabled, the resolved
format type (`none` embeds `type = None` for thin pools), the possibly
cleared mount point, the possibly recomputed size and grow flag, the
volume group and the optional thin pool. -/
structure LVPre where
  core : CoreState
  type : Option String
  mountpoint : String
  size : Nat
  grow : Bool
  vg : Dev
  pool : Option Dev
deriving DecidableEq

/-- Embedding of `LogVolData.execute` lines 717-759: disable autopart,
translate the volume-group name through `ksdata.onPart`, handle the
`swap` mount point (with the swap-suggestion size when recommended or
hibernation is set), blank the mount point and type for thin pools,
check the mount point shape, and look up the volume group and, for thin
volumes, the pool. -/
def logVolPre (ext : Externals) (core0 : CoreState) (self : LogVolDataKS) :
    Except KSError LVPre :=
  let core := { core0 with doAutoPart := false }
  let vgname := (core.onPart.lookup self.vgname).getD self.vgname
  let size := if self.mountpoint = "swap" ∧ (self.recommended || self.hibernation) then
      ext.swapSuggestion else self.size
  let grow := if self.mountpoint = "swap" ∧ (self.recommended || self.hibernation) then
      false else self.grow
  let ty : Option String := if self.thin_pool then none
    else if self.mountpoint = "swap" then some "swap"
    else some (if self.fstype ≠ "" then self.fstype else ext.defaultFSType)
  let mountpoint := if self.thin_pool ∨ self.mountpoint = "swap" then "" else self.mountpoint
  if mountpoint ≠ "" ∧ ¬ strStarts mountpoint "/" then
    .error (.kickstartValueError ("The mount point \"" ++ mountpoint ++ "\" is not valid."))
  else
    match getDeviceByName core.devicetree vgname with
    | none => .error (.kickstartValueError
        ("No volume group exists with the name \"" ++ self.vgname ++
         "\".  Specify volume groups before logical volumes."))
    | some vg =>
      if self.thin_volume then
        match getDeviceByName core.devicetree (vg.name ++ "-" ++ self.pool_name) with
        | none => .error (.kickstartValueError
            ("No thin pool exists with the name \"" ++ self.pool_name ++
             "\". Specify thin pools before thin volumes."))
        | some pool =>
          .ok { core := core, type := ty, mountpoint := mountpoint,
                size := size, grow := grow, vg := vg, pool := some pool }
      else
        .ok { core := core, type := ty, mountpoint := mountpoint,
              size := size, grow := grow, vg := vg, pool := none }

/-- Embedding of the `--noformat` branch of `LogVolData.execute`
(lines 763-791): require a name, look up the preexisting logical volume
`vgname-name`, register the resize pair when requested, and record the
mount point and options on the existing format. -/
def logVolNoFormat (ext : Externals) (pre : LVPre) (self : LogVolDataKS) :
    Except KSError CoreState :=
  if self.name = "" then
    .error (.kickstartValueError "--noformat used without --name")
  else
    match getDeviceByName pre.core.devicetree (pre.vg.name ++ "-" ++ self.name) with
    | none => .error (.kickstartValueError
        ("No preexisting logical volume with the name \"" ++ self.name ++ "\" was found."))
    | some dev =>
      match (if self.resize then registerResizeActions ext pre.core dev pre.size
             else .ok pre.core) with
      | .error e => .error e
      | .ok core =>
        .ok (updateDevice core dev.name
          (fun d => { d with fmtMountpoint := pre.mountpoint, fmtMountopts := self.fsopts }))

/-- Embedding of `LogVolData.execute` lines 793-868: name-collision and
size checks for new volumes, the format support check, then either the
preexisting branch (remove the old format, optionally resize, register
the new format) or the new-volume branch (destroy the prior mount-point
claimant and create the logical volume `vgname-name`, parented on the
pool for thin volumes).  Returns the updated core and the device the
encryption block would wrap. -/
def logVolCreate (ext : Externals) (pre : LVPre) (self : LogVolDataKS) :
    Except KSError (CoreState × String) :=
  let core := pre.core
  let lvFullName := pre.vg.name ++ "-" ++ self.name
  if ¬ self.preexist ∧ (getDeviceByName core.devicetree lvFullName).isSome then
    .error (.kickstartValueError
      ("Logical volume name already used in volume group " ++ pre.vg.name))
  else if ¬ self.preexist ∧ self.percent = 0 ∧ pre.size = 0 then
    .error (.kickstartValueError "Size required")
  else if ¬ self.preexist ∧ self.percent = 0 ∧ ¬ pre.grow ∧ pre.size * 1024 < pre.vg.peSize then
    .error (.kickstartValueError
      "Logical volume size must be larger than the volume group physical extent size.")
  else if ¬ self.preexist ∧ self.percent ≠ 0 ∧ (self.percent ≤ 0 ∨ self.percent > 100) then
    .error (.kickstartValueError "Percentage must be between 0 and 100")
  else
    let fmtOk := match pre.type with
      | none => false
      | some t => ext.supported t
    let fmtType := match pre.type with
      | none => ""
      | some t => if ext.supported t then t else ""
    if fmtOk = false ∧ self.thin_pool = false then
      .error (.kickstartValueError
        ("The \"" ++ pre.type.getD "None" ++ "\" filesystem type is not supported."))
    else if self.preexist then
      match getDeviceByName core.devicetree lvFullName with
      | none => .error (.kickstartValueError
          ("Specified nonexistent LV " ++ self.name ++ " in logvol command"))
      | some device =>
        let core := removeExistingFormat core device
        match (if self.resize then
                 (if ext.resizeActionsValid then
                    Except.ok (registerAction core (.resizeDevice device.name pre.size))
                  else
                    Except.error (KSError.kickstartValueError
                      ("Invalid target size (" ++ toString pre.size ++ ") for device " ++
                       device.name)))
               else Except.ok core) with
        | .error e => .error e
        | .ok core =>
          let core := registerCreateFormat core device.name fmtType pre.mountpoint
            self.label self.fsopts
          .ok (core, device.name)
    else
      let core := destroyPriorClaimant core pre.mountpoint
      let parentName := if self.thin_volume then
          (pre.pool.map (fun p => p.name)).getD pre.vg.name
        else pre.vg.name
      let request : Dev := { name := lvFullName, devKind := "lv",
                             fmtType := fmtType, fmtMountpoint := pre.mountpoint,
                             fmtLabel := self.label, fmtMountopts := self.fsopts,
                             currentSize := pre.size, parents := [parentName],
                             reqName := some self.name }
      .ok (createDevice core request, request.name)

/-- Embedding of `LogVolData.execute` (lines 716-893): the preparation
phase, then the `--noformat` early return or the create phase followed,
when `self.encrypted`, by the shared encryption block. -/
def logVolExecute (ext : Externals) (st : St) (self : LogVolDataKS) : Except KSError St :=
  match logVolPre ext st.core self with
  | .error e => .error e
  | .ok pre =>
    if ¬ self.format then
      match logVolNoFormat ext pre self with
      | .error e => .error e
      | .ok core => .ok { st with core := core }
    else
      match logVolCreate ext pre self with
      | .error e => .error e
      | .ok (core, target) =>
        if self.encrypted then
          encryptionBlock ext { st with core := core } target
            self.passphrase self.cipher self.escrowcert self.backuppassphrase
        else .ok { st with core := core }

/-- The values `PartitionData.execute` computes before its format
branches (lines 932-1013): the core state with autopart disabled and the
placeholder alias possibly recorded, the resolved format type, the
placeholder name passed to the engine (`kwargs["name"]`), the possibly
cleared mount point, the possibly recomputed size and grow flag, the
possibly EDD-resolved disk, and the possibly overridden mount
options. -/
structure PartPre where
  core : CoreState
  type : String
  kwargsName : Option String
  mountpoint : String
  size : Nat
  grow : Bool
  disk : String
  fsopts : String
deriving DecidableEq

/-- Constructor shorthand for `PartPre` (fields in declaration order). -/
def mkPartPre (core : CoreState) (ty : String) (kn : Option String) (mp : String)
    (size : Nat) (grow : Bool) (disk fsopts : String) : PartPre :=
  { core := core, type := ty, kwargsName := kn, mountpoint := mp, size := size,
    grow := grow, disk := disk, fsopts := fsopts }

/-- The `--onbiosdisk` resolution of `PartitionData.execute`
lines 938-942: the EDD entry whose hex-formatted bios disk number equals
`self.onbiosdisk` replaces `self.disk`. -/
def partDataDisk (ext : Externals) (self : PartDataKS) : String :=
  if self.onbiosdisk ≠ "" then
    (match ext.eddDict.find? (fun kv => kv.2 == self.onbiosdisk) with
     | some kv => kv.1
     | none => self.disk)
  else self.disk

/-- Embedding of `PartitionData.execute` lines 932-1013: disable
autopart, resolve `--onbiosdisk` through the EDD map, then dispatch on
the mount point: `swap` (with the swap-suggestion size when recommended
or hibernation is set), the literal pseudo mount points, the
`raid.`/`pv.`/`btrfs.` placeholders (whose duplicate registration
raises, and whose `--onpart` value is recorded in `ksdata.onPart` after
the check), `/boot/efi`, and the default filesystem choice. -/
def partDataPre (ext : Externals) (core0 : CoreState) (self : PartDataKS) :
    Except KSError PartPre :=
  let core := { core0 with doAutoPart := false }
  let disk := partDataDisk ext self
  if self.onbiosdisk ≠ "" ∧ disk = "" then
    .error (.kickstartValueError
      ("Specified BIOS disk " ++ self.onbiosdisk ++ " cannot be determined"))
  else if self.mountpoint = "swap" then
    if self.recommended || self.hibernation then
      .ok (mkPartPre core "swap" none "" ext.swapSuggestion false disk self.fsopts)
    else
      .ok (mkPartPre core "swap" none "" self.size self.grow disk self.fsopts)
  else if self.mountpoint = "None" then
    .ok (mkPartPre core (if self.fstype ≠ "" then self.fstype else ext.defaultFSType)
      none "" self.size self.grow disk self.fsopts)
  else if self.mountpoint = "appleboot" then
    .ok (mkPartPre core "appleboot" none "" self.size self.grow disk self.fsopts)
  else if self.mountpoint = "prepboot" then
    .ok (mkPartPre core "prepboot" none "" self.size self.grow disk self.fsopts)
  else if self.mountpoint = "biosboot" then
    .ok (mkPartPre core "biosboot" none "" self.size self.grow disk self.fsopts)
  else if strStarts self.mountpoint "raid." then
    if (getDeviceByName core.devicetree self.mountpoint).isSome then
      .error (.kickstartValueError "RAID partition defined multiple times")
    else
      let core := if self.onPart ≠ "" then
          { core with onPart := setAssoc core.onPart self.mountpoint self.onPart }
        else core
      .ok (mkPartPre core "mdmember" (some self.mountpoint) "" self.size self.grow disk
        self.fsopts)
  else if strStarts self.mountpoint "pv." then
    if (getDeviceByName core.devicetree self.mountpoint).isSome then
      .error (.kickstartValueError "PV partition defined multiple times")
    else
      let core := if self.onPart ≠ "" then
          { core with onPart := setAssoc core.onPart self.mountpoint self.onPart }
        else core
      .ok (mkPartPre core "lvmpv" (some self.mountpoint) "" self.size self.grow disk
        self.fsopts)
  else if strStarts self.mountpoint "btrfs." then
    if (getDeviceByName core.devicetree self.mountpoint).isSome then
      .error (.kickstartValueError "BTRFS partition defined multiple times")
    else
      let core := if self.onPart ≠ "" then
          { core with onPart := setAssoc core.onPart self.mountpoint self.onPart }
        else core
      .ok (mkPartPre core "btrfs" (some self.mountpoint) "" self.size self.grow disk
        self.fsopts)
  else if self.mountpoint = "/boot/efi" then
    if ext.isMactel then
      .ok (mkPartPre core "hfs+" none self.mountpoint self.size self.grow disk self.fsopts)
    else
      .ok (mkPartPre core "EFI System Partition" none self.mountpoint self.size self.grow
        disk "defaults,uid=0,gid=0,umask=0077,shortname=winnt")
  else
    .ok (mkPartPre core
      (if self.fstype ≠ "" then self.fstype
       else if self.mountpoint = "/boot" then ext.defaultBootFSType
       else ext.defaultFSType)
      none self.mountpoint self.size self.grow disk self.fsopts)

/-- Embedding of the `--noformat` branch of `PartitionData.execute`
(lines 1017-1045): require `--onpart`, resolve the preexisting
partition, register the resize pair when requested, and record the
mount point and options on the existing format. -/
def partDataNoFormat (ext : Externals) (pre : PartPre) (self : PartDataKS) :
    Except KSError CoreState :=
  if self.onPart = "" then
    .error (.kickstartValueError "--noformat used without --onpart")
  else
    match resolveDevice pre.core.devicetree self.onPart with
    | none => .error (.kickstartValueError
        ("No preexisting partition with the name \"" ++ self.onPart ++ "\" was found."))
    | some dev =>
      match (if self.resize then registerResizeActions ext pre.core dev pre.size
             else Except.ok pre.core) with
      | .error e => .error e
      | .ok core =>
        .ok (updateDevice core dev.name
          (fun d => { d with fmtMountpoint := pre.mountpoint, fmtMountopts := self.fsopts }))

/-- Embedding of `PartitionData.execute` lines 1047-1121: the format
support check; the `--ondisk` verification with multipath promotion (an
empty child list on a multipath member would be the uncaught
`IndexError` of the source); then the `--onpart` preexisting branch
(remove the old format, optionally resize, register the new format), the
tmpfs branch, or the new-partition branch (destroy the prior mount-point
claimant and create the partition request, named by the placeholder when
one was given).  Returns the updated core and the device the encryption
block would wrap. -/
def partDataCreate (ext : Externals) (pre : PartPre) (self : PartDataKS) :
    Except KSError (CoreState × String) :=
  let core := pre.core
  if ¬ ext.supported pre.type then
    .error (.kickstartValueError
      ("The \"" ++ pre.type ++ "\" filesystem type is not supported."))
  else
    match (if pre.disk ≠ "" then
             (match resolveDevice core.devicetree pre.disk with
              | none => Except.error (KSError.kickstartValueError
                  ("Specified nonexistent disk " ++ pre.disk ++ " in partition command"))
              | some disk0 =>
                match (if disk0.fmtType = "multipath_member" then
                         (match (getChildren core.devicetree disk0).head? with
                          | some mp => Except.ok mp
                          | none => Except.error (KSError.kickstartError
                              "IndexError: list index out of range"))
                       else Except.ok disk0) with
                | .error e => Except.error e
                | .ok disk =>
                  if ¬ disk.partitionable then
                    Except.error (KSError.kickstartValueError
                      ("Cannot install to read-only media " ++ pre.disk ++ "."))
                  else if disk.partitioned || ext.shouldClear disk.name then
                    Except.ok (some disk)
                  else
                    Except.error (KSError.kickstartValueError
                      ("Specified unpartitioned disk " ++ pre.disk ++ " in partition command")))
           else Except.ok none) with
    | .error e => .error e
    | .ok parentDisk =>
      if self.onPart ≠ "" then
        match resolveDevice core.devicetree self.onPart with
        | none => .error (.kickstartValueError
            ("Specified nonexistent partition " ++ self.onPart ++ " in partition command"))
        | some device =>
          let core := removeExistingFormat core device
          match (if self.resize then
                   (if ext.resizeActionsValid then
                      Except.ok (registerAction core (.resizeDevice device.name pre.size))
                    else
                      Except.error (KSError.kickstartValueError
                        ("Invalid target size (" ++ toString pre.size ++ ") for device " ++
                         device.name)))
                 else Except.ok core) with
          | .error e => .error e
          | .ok core =>
            let core := registerCreateFormat core device.name pre.type pre.mountpoint
              self.label pre.fsopts
            .ok (core, device.name)
      else if self.fstype = "tmpfs" then
        let request : Dev := { name := "req" ++ toString core.nextID, devKind := "tmpfs",
                               fmtType := pre.type, fmtMountpoint := pre.mountpoint,
                               fmtLabel := self.label, fmtMountopts := pre.fsopts,
                               currentSize := pre.size }
        .ok (createDevice core request, request.name)
      else
        let core := destroyPriorClaimant core pre.mountpoint
        let request : Dev := { name := (pre.kwargsName.getD ("req" ++ toString core.nextID)),
                               devKind := "partition",
                               fmtType := pre.type, fmtMountpoint := pre.mountpoint,
                               fmtLabel := self.label, fmtMountopts := pre.fsopts,
                               currentSize := pre.size,
                               parents := match parentDisk with
                                 | some d => [d.name]
                                 | none => [],
                               reqName := pre.kwargsName }
        .ok (createDevice core request, request.name)

/-- Embedding of `PartitionData.execute` (lines 931-1146): the
preparation phase, then the `--noformat` early return or the create
phase followed, when `self.encrypted`, by the shared encryption
block. -/
def partDataExecute (ext : Externals) (st : St) (self : PartDataKS) : Except KSError St :=
  match partDataPre ext st.core self with
  | .error e => .error e
  | .ok pre =>
    if ¬ self.format then
      match partDataNoFormat ext pre self with
      | .error e => .error e
      | .ok core => .ok { st with core := core }
    else
      match partDataCreate ext pre self with
      | .error e => .error e
      | .ok (core, target) =>
        if self.encrypted then
          encryptionBlock ext { st with core := core } target
            self.passphrase self.cipher self.escrowcert self.backuppassphrase
        else .ok { st with core := core }

/-- The values `RaidData.execute` computes before its format branches
(lines 1154-1199): the core state with autopart disabled and the
placeholder alias written (before the duplicate check), the resolved
format type, the possibly cleared mount point, and the possibly
re-resolved device name. -/
structure RaidPre where
  core : CoreState
  type : String
  mountpoint : String
  devicename : String
deriving DecidableEq

/-- Embedding of `RaidData.execute` lines 1154-1199: re-resolve the
device name for preexisting arrays, disable autopart, dispatch on the
mount point (`swap`, the `pv.`/`btrfs.` placeholders — whose `onPart`
alias entry is written before the duplicate check, mirroring the source
order — or a real mount point with the default filesystem choice), then
check the mount point shape. -/
def raidPre (ext : Externals) (core0 : CoreState) (self : RaidDataKS) :
    Except KSError RaidPre :=
  let devicename := if self.preexist then
      (match resolveDevice core0.devicetree self.device with
       | some d => d.name
       | none => self.device)
    else self.device
  let core := { core0 with doAutoPart := false }
  if self.mountpoint = "swap" then
    .ok { core := core, type := "swap", mountpoint := "", devicename := devicename }
  else if strStarts self.mountpoint "pv." then
    let core := { core with onPart := setAssoc core.onPart self.mountpoint devicename }
    if (getDeviceByName core.devicetree self.mountpoint).isSome then
      .error (.kickstartValueError "PV partition defined multiple times")
    else
      .ok { core := core, type := "lvmpv", mountpoint := "", devicename := devicename }
  else if strStarts self.mountpoint "btrfs." then
    let core := { core with onPart := setAssoc core.onPart self.mountpoint devicename }
    if (getDeviceByName core.devicetree self.mountpoint).isSome then
      .error (.kickstartValueError "BTRFS partition defined multiple times")
    else
      .ok { core := core, type := "btrfs", mountpoint := "", devicename := devicename }
  else
    let ty := if self.fstype ≠ "" then self.fstype
      else if self.mountpoint = "/boot" ∧ ext.stage2Mdarray then ext.defaultBootFSType
      else ext.defaultFSType
    if self.mountpoint ≠ "" ∧ ¬ strStarts self.mountpoint "/" then
      .error (.kickstartValueError "The mount point is not valid.")
    else
      .ok { core := core, type := ty, mountpoint := self.mountpoint,
            devicename := devicename }

/-- Embedding of the `--noformat` branch of `RaidData.execute`
(lines 1203-1213): require a device name, look up the preexisting array,
and record the mount point and options on the existing format. -/
def raidNoFormat (pre : RaidPre) (self : RaidDataKS) : Except KSError CoreState :=
  if pre.devicename = "" then
    .error (.kickstartValueError "--noformat used without --device")
  else
    match getDeviceByName pre.core.devicetree pre.devicename with
    | none => .error (.kickstartValueError
        ("No preexisting RAID device with the name \"" ++ pre.devicename ++ "\" was found."))
    | some dev =>
      .ok (updateDevice pre.core dev.name
        (fun d => { d with fmtMountpoint := pre.mountpoint, fmtMountopts := self.fsopts }))

/-- Embedding of `RaidData.execute` lines 1215-1280: resolve and check
every member, check the format support, then either the preexisting
branch (remove the old format, register the new format, including the
source's misspelled message) or the new-array branch (name-collision
check against existing arrays, destroy the prior mount-point claimant,
and create the array, turning a `ValueError` from `newMDArray` into
`KickstartValueError`).  Returns the updated core and the device the
encryption block would wrap. -/
def raidCreate (ext : Externals) (pre : RaidPre) (self : RaidDataKS) :
    Except KSError (CoreState × String) :=
  let core := pre.core
  match self.members.mapM (raidMemberCheck core.devicetree core.onPart) with
  | .error e => .error e
  | .ok raidmems =>
    if ¬ ext.supported pre.type then
      .error (.kickstartValueError
        ("The \"" ++ pre.type ++ "\" filesystem type is not supported."))
    else if self.preexist then
      match getDeviceByName core.devicetree pre.devicename with
      | none => .error (.kickstartValueError
          ("Specifeid nonexistent RAID " ++ pre.devicename ++ " in raid command"))
      | some device =>
        let core := removeExistingFormat core device
        let core := registerCreateFormat core device.name pre.type pre.mountpoint
          self.label self.fsopts
        .ok (core, device.name)
    else
      if pre.devicename ≠ "" ∧
         pre.devicename ∈ ((core.devicetree.filter (fun d => d.devKind == "mdarray")).map
           (fun d => d.name)) then
        .error (.kickstartValueError
          ("The Software RAID array name \"" ++ pre.devicename ++ "\" is already in use."))
      else
        let core := destroyPriorClaimant core pre.mountpoint
        if ¬ ext.newMDArrayValid then
          .error (.kickstartValueError ext.newMDArrayError)
        else
          let request : Dev := { name := if pre.devicename = "" then
                                   "md" ++ toString core.nextID
                                 else pre.devicename,
                                 devKind := "mdarray",
                                 fmtType := pre.type, fmtMountpoint := pre.mountpoint,
                                 fmtLabel := self.label, fmtMountopts := self.fsopts,
                                 parents := raidmems.map (fun d => d.name) }
          .ok (createDevice core request, request.name)

/-- Embedding of `RaidData.execute` (lines 1153-1305): the preparation
phase, then the `--noformat` early return or the create phase followed,
when `self.encrypted`, by the shared encryption block. -/
def raidDataExecute (ext : Externals) (st : St) (self : RaidDataKS) : Except KSError St :=
  match raidPre ext st.core self with
  | .error e => .error e
  | .ok pre =>
    if ¬ self.format then
      match raidNoFormat pre self with
      | .error e => .error e
      | .ok core => .ok { st with core := core }
    else
      match raidCreate ext pre self with
      | .error e => .error e
      | .ok (core, target) =>
        if self.encrypted then
          encryptionBlock ext { st with core := core } target
            self.passphrase self.cipher self.escrowcert self.backuppassphrase
        else .ok { st with core := core }

/-- Embedding of `VolGroupData.execute` (lines 1436-1493): disable
autopart, resolve and check every physical volume, require at least one
physical volume for new groups, check the physical extent size against
the possible extents, then either verify the preexisting group or create
the new group (checking the name against existing groups), record the
reserved space or percent on the request, and record the group name in
`ksdata.onPart`. -/
def volGroupExecute (ext : Externals) (st : St) (self : VolGroupKS) : Except KSError St :=
  let core := { st.core with doAutoPart := false }
  match self.physvols.mapM (vgPVCheck core.devicetree core.onPart) with
  | .error e => .error e
  | .ok pvs =>
    if pvs.length = 0 ∧ ¬ self.preexist then
      .error (.kickstartValueError
        "Volume group defined without any physical volumes.  Either specify physical volumes or use --useexisting.")
    else if self.pesize ∉ ext.possiblePhysicalExtents then
      .error (.kickstartValueError "Volume group specified invalid pesize")
    else if ¬ self.format ∨ self.preexist then
      if self.vgname = "" then
        .error (.kickstartValueError "--noformat or --useexisting used without giving a name")
      else
        match getDeviceByName core.devicetree self.vgname with
        | none => .error (.kickstartValueError
            ("No preexisting VG with the name \"" ++ self.vgname ++ "\" was found."))
        | some _ => .ok { st with core := core }
    else if self.vgname ∈ ((core.devicetree.filter (fun d => d.devKind == "vg")).map
        (fun d => d.name)) then
      .error (.kickstartValueError
        ("The volume group name \"" ++ self.vgname ++ "\" is already in use."))
    else
      let request : Dev := { name := self.vgname, devKind := "vg",
                             peSize := self.pesize / 1024,
                             reservedSpace := self.reserved_space,
                             reservedPercent := if self.reserved_space ≠ 0 then 0
                               else self.reserved_percent,
                             parents := pvs.map (fun d => d.name) }
      let core := createDevice core request
      let core := { core with onPart := setAssoc core.onPart self.vgname request.name }
      .ok { st with core := core }

/-- Embedding of `BTRFSData.execute` (lines 354-425): disable autopart,
resolve and check every member device, pick the volume name, require
members for new volumes, normalize and check the mount point, destroy
the prior mount-point claimant, then either record the mount point on
the preexisting volume or create the new volume. -/
def btrfsDataExecute (ext : Externals) (st : St) (self : BTRFSKS) : Except KSError St :=
  let core := { st.core with doAutoPart := false }
  match self.devices.mapM (btrfsMemberCheck core.devicetree core.onPart) with
  | .error e => .error e
  | .ok members =>
    let name := if self.subvol then some self.name
      else if self.label ≠ "" then some self.label
      else none
    if members.length = 0 ∧ ¬ self.preexist then
      .error (.kickstartValueError
        "BTRFS volume defined without any member devices.  Either specify member devices or use --useexisting.")
    else
      let mountpoint := if self.mountpoint = "none" ∨ self.mountpoint = "None" then ""
        else self.mountpoint
      if mountpoint ≠ "" ∧ ¬ strStarts mountpoint "/" then
        .error (.kickstartValueError
          ("The mount point \"" ++ mountpoint ++ "\" is not valid."))
      else
        let core := destroyPriorClaimant core mountpoint
        if self.preexist then
          match resolveDevice core.devicetree self.name with
          | none => .error (.kickstartValueError
              ("Specified nonexistent BTRFS volume " ++ self.name ++ " in btrfs command"))
          | some device =>
            let core := updateDevice core device.name
              (fun d => { d with fmtMountpoint := mountpoint })
            .ok { st with core := core }
        else
          let request : Dev := { name := (name.getD ("btrfs" ++ toString core.nextID)),
                                 devKind := "btrfs", fmtType := "btrfs",
                                 fmtMountpoint := mountpoint,
                                 parents := members.map (fun d => d.name) }
          .ok { st with core := createDevice core request }

/-- Embedding of `ClearPart.execute` (lines 535-543): record the
clearing policy on the storage configuration and run the external
`storage.clearPartitions()` over the device tree. -/
def clearPartExecute (ext : Externals) (st : St) (self : ClearPartKS) : St :=
  let st := { st with clearPartType := self.type, clearPartDisks := self.drives,
                      clearPartDevices := self.devices }
  let st := if self.initAll then { st with initializeDisks := self.initAll } else st
  { st with core := { st.core with devicetree := ext.clearPartitions st.core.devicetree } }

/-- Embedding of `AutoPart.execute` (lines 248-271): nothing when
autopart was not requested; otherwise install the default partitioning,
set `storage.doAutoPart`, record the encryption attributes (fetching the
escrow certificate), record the autopart type, and run the external
`doAutoPartition` with its sanity check over the device tree. -/
def autoPartExecute (ext : Externals) (st : St) (self : AutoPartKS) : Except KSError St :=
  if ¬ self.autopart then .ok st
  else
    let st := { st with core := { st.core with
      devicetree := ext.setDefaultPartitioning st.core.devicetree, doAutoPart := true } }
    match (if self.encrypted then
             (match getEscrowCertificate ext st.escrowCertificates self.escrowcert with
              | .error e => Except.error e
              | .ok (cert, certs) =>
                Except.ok { st with encryptedAutoPart := true,
                                    encryptionPassphrase := self.passphrase,
                                    encryptionCipher := self.cipher,
                                    autoPartEscrowCert := cert,
                                    escrowCertificates := certs,
                                    autoPartAddBackupPassphrase := self.backuppassphrase })
           else Except.ok st) with
    | .error e => .error e
    | .ok st =>
      let st := match self.type with
        | some t => { st with autoPartType := some t }
        | none => st
      match ext.doAutoPartition st.core.devicetree with
      | .error e => .error e
      | .ok tree => .ok { st with core := { st.core with devicetree := tree } }

/-- Embedding of `Partition.execute` (lines 923-929): run every `part`
line in order, then the external `doPartitioning` solve when any line
was present. -/
def partitionKindExecute (ext : Externals) (lst : List PartDataKS) (st : St) :
    Except KSError St :=
  match lst.foldlM (fun s p => partDataExecute ext s p) st with
  | .error e => .error e
  | .ok st =>
    if lst.isEmpty then .ok st
    else
      match ext.doPartitioning st.core.devicetree with
      | .error e => .error e
      | .ok tree => .ok { st with core := { st.core with devicetree := tree } }

/-- Embedding of `Raid.execute` (lines 1148-1151): run every `raid` line
in order. -/
def raidKindExecute (ext : Externals) (lst : List RaidDataKS) (st : St) :
    Except KSError St :=
  lst.foldlM (fun s r => raidDataExecute ext s r) st

/-- Embedding of `VolGroup.execute` (lines 1431-1434): run every
`volgroup` line in order. -/
def volGroupKindExecute (ext : Externals) (lst : List VolGroupKS) (st : St) :
    Except KSError St :=
  lst.foldlM (fun s v => volGroupExecute ext s v) st

/-- Embedding of `LogVol.execute` (lines 708-714): run every `logvol`
line in order, then the external `growLVM` solve when any line was
present. -/
def logVolKindExecute (ext : Externals) (lst : List LogVolDataKS) (st : St) :
    Except KSError St :=
  match lst.foldlM (fun s l => logVolExecute ext s l) st with
  | .error e => .error e
  | .ok st =>
    if lst.isEmpty then .ok st
    else
      match ext.growLVM st.core.devicetree with
      | .error e => .error e
      | .ok tree => .ok { st with core := { st.core with devicetree := tree } }

/-- Embedding of `BTRFS.execute` (lines 349-352): run every `btrfs` line
in order. -/
def btrfsKindExecute (ext : Externals) (lst : List BTRFSKS) (st : St) :
    Except KSError St :=
  lst.foldlM (fun s b => btrfsDataExecute ext s b) st

/-- The parsed storage kickstart data handed to the orchestrator: one
record per command kind, the list-bearing kinds with their ordered
sub-item lists. -/
structure KSAll where
  clearpart : ClearPartKS := {}
  autopart : AutoPartKS := {}
  partition : List PartDataKS := []
  raid : List RaidDataKS := []
  volgroup : List VolGroupKS := []
  logvol : List LogVolDataKS := []
  btrfs : List BTRFSKS := []
deriving DecidableEq

/-- The steps of the orchestrator `doKickstartStorage`, in source
order. -/
inductive OrchStep where
  | clearpart
  | bootloader
  | autopart
  | partition
  | raid
  | volgroup
  | logvol
  | btrfs
  | bootloaderFinal
deriving DecidableEq

/-- The fixed step order of one `doKickstartStorage` run. -/
def fullOrder : List OrchStep :=
  [.clearpart, .bootloader, .autopart, .partition, .raid, .volgroup, .logvol, .btrfs,
   .bootloaderFinal]

/-- Whether any usable disk remains: the test of `doKickstartStorage`
lines 1784-1785 over `storage.disks`, skipping hidden-format and
protected disks. -/
def anyEligibleDisk (tree : List Dev) : Bool :=
  tree.any (fun d => d.devKind == "disk" && !d.fmtHidden && !d.isProtected)

/-- Run a list of labelled steps in order, stopping at the first error;
returns the labels of the steps that executed and the final result. -/
def runSteps (st : St) : List (OrchStep × (St → Except KSError St)) →
    List OrchStep × Except KSError St
  | [] => ([], .ok st)
  | (lbl, f) :: rest =>
    match f st with
    | .error e => ([lbl], .error e)
    | .ok st2 =>
      let r := runSteps st2 rest
      (lbl :: r.1, r.2)

/-- The labelled steps of `doKickstartStorage` after the clearpart step
and the disk check (lines 1787-1795): bootloader placement, autopart,
the five manual kinds in order, and the final `storage.setUpBootLoader`. -/
def orchestratorSteps (ext : Externals) (ks : KSAll) :
    List (OrchStep × (St → Except KSError St)) :=
  [(.bootloader, fun st =>
      match ext.bootloaderStep st.core.devicetree with
      | .error e => .error e
      | .ok _ => .ok st),
   (.autopart, fun st => autoPartExecute ext st ks.autopart),
   (.partition, fun st => partitionKindExecute ext ks.partition st),
   (.raid, fun st => raidKindExecute ext ks.raid st),
   (.volgroup, fun st => volGroupKindExecute ext ks.volgroup st),
   (.logvol, fun st => logVolKindExecute ext ks.logvol st),
   (.btrfs, fun st => btrfsKindExecute ext ks.btrfs st),
   (.bootloaderFinal, fun st =>
      match ext.setUpBootLoader st.core.devicetree with
      | .error e => .error e
      | .ok _ => .ok st)]

/-- Embedding of `doKickstartStorage` (lines 1781-1796): run clearpart,
return silently when no usable disk remains, otherwise run the remaining
steps in the fixed order; the trace of executed step labels is returned
alongside the result. -/
def doKickstartStorage (ext : Externals) (st : St) (ks : KSAll) :
    List OrchStep × Except KSError St :=
  let st := clearPartExecute ext st ks.clearpart
  if ¬ anyEligibleDisk st.core.devicetree then
    ([.clearpart], .ok st)
  else
    let r := runSteps st (orchestratorSteps ext ks)
    (.clearpart :: r.1, r.2)

/-- One manual storage sub-item: a `part`, `raid` or `logvol` line (the
kinds whose handlers contain the shared encryption block). -/
inductive SubItem where
  | part (p : PartDataKS)
  | raid (r : RaidDataKS)
  | logvol (l : LogVolDataKS)
deriving DecidableEq

/-- Execute one manual sub-item through its handler embedding. -/
def subItemExec (ext : Externals) (st : St) : SubItem → Except KSError St
  | .part p => partDataExecute ext st p
  | .raid r => raidDataExecute ext st r
  | .logvol l => logVolExecute ext st l

/-- Whether a sub-item requests encryption (`self.encrypted`). -/
def itemEncrypted : SubItem → Bool
  | .part p => p.encrypted
  | .raid r => r.encrypted
  | .logvol l => l.encrypted

/-- Whether a sub-item is to be formatted (`self.format`); `--noformat`
sub-items return before the encryption block. -/
def itemFormat : SubItem → Bool
  | .part p => p.format
  | .raid r => r.format
  | .logvol l => l.format

/-- The explicit passphrase of a sub-item (`self.passphrase`, empty when
omitted). -/
def itemPassphrase : SubItem → String
  | .part p => p.passphrase
  | .raid r => r.passphrase
  | .logvol l => l.passphrase

/-- The first explicit passphrase among the sub-items that reach the
encryption block (encrypted, to-be-formatted, passphrase present). -/
def firstExplicitPassphrase : List SubItem → String
  | [] => ""
  | i :: rest =>
    if itemEncrypted i ∧ itemFormat i ∧ itemPassphrase i ≠ "" then itemPassphrase i
    else firstExplicitPassphrase rest

/-- Modelled from the spec: the storage engine applies the run-wide
default passphrase to every staged LUKS format that was created without
its own passphrase ("an entity omitting an explicit passphrase receives
the run's first-seen passphrase"); that engine-side filling happens
outside `src/` (the handlers only record the default on
`storage.encryptionPassphrase`). -/
def appliedPassphrase (runDefault fmtPassphrase : String) : String :=
  if fmtPassphrase = "" then runDefault else fmtPassphrase

/-- Extract the success value of an `Except`, with a default. -/
def exceptGetD {ε α : Type} (x : Except ε α) (dflt : α) : α :=
  match x with
  | .ok a => a
  | .error _ => dflt

/-- Concrete externals used by the witness runs: every format type
supported, network up, one possible physical extent size, all blivet
global operations the identity. -/
def extT : Externals :=
  { connected := true, possiblePhysicalExtents := [32768] }

/-- Witness state for the resize runs: a volume group `sys` with the
preexisting logical volume `sys-root` of size 8192, and a preexisting
partition `sda1` of size 8192. -/
def stResize : St :=
  { core := { devicetree :=
      [{ name := "sys", devKind := "vg" },
       { name := "sys-root", devKind := "lv", currentSize := 8192, fmtType := "ext4" },
       { name := "sda1", devKind := "partition", currentSize := 8192, fmtType := "ext4" }] } }

/-- Witness `logvol` line: `--noformat --resize` shrink of `sys-root` to
4096. -/
def lvResizeKS : LogVolDataKS :=
  { name := "root", vgname := "sys", mountpoint := "/", size := 4096,
    format := false, resize := true }

/-- Witness `part` line: `--noformat --onpart sda1 --resize` shrink to
4096. -/
def partResizeKS : PartDataKS :=
  { mountpoint := "/home", onPart := "sda1", size := 4096,
    format := false, resize := true }

/-- Final state of the witness logvol resize run. -/
def lvResizeFinal : St := exceptGetD (logVolExecute extT stResize lvResizeKS) {}

/-- Final state of the witness partition resize run. -/
def partResizeFinal : St := exceptGetD (partDataExecute extT stResize partResizeKS) {}

/-- Witness state with no usable disk: the only disk carries a hidden
format. -/
def stNoDisk : St :=
  { core := { devicetree := [{ name := "sda", devKind := "disk", fmtHidden := true }] } }

/-- Witness state with one usable disk. -/
def stDisk : St :=
  { core := { devicetree := [{ name := "sda", devKind := "disk" }] } }

/-- Empty kickstart data: no storage command requested. -/
def ksEmpty : KSAll := {}

/-- Witness `part` line creating a plain `/data` partition. -/
def partPlainKS : PartDataKS := { mountpoint := "/data", size := 2048 }

/-- Kickstart data with a single `part` line. -/
def ksOnePart : KSAll := { partition := [partPlainKS] }

/-- Witness state for the passphrase run: a volume group `sys`. -/
def stC4 : St := { core := { devicetree := [{ name := "sys", devKind := "vg" }] } }

/-- Witness encrypted `part` line carrying the explicit passphrase. -/
def partEncKS : PartDataKS :=
  { mountpoint := "/data", size := 2048, encrypted := true, passphrase := "abc123" }

/-- Witness encrypted `logvol` line omitting its passphrase. -/
def lvEncKS : LogVolDataKS :=
  { name := "root", vgname := "sys", mountpoint := "/", size := 4096, encrypted := true }

/-- The witness sub-item sequence: the encrypted partition, then the
encrypted logical volume without a passphrase. -/
def c4Items : List SubItem := [.part partEncKS, .logvol lvEncKS]

/-- Final state of the witness passphrase run. -/
def c4Final : St := exceptGetD (c4Items.foldlM (fun s i => subItemExec extT s i) stC4) {}

/-- Witness state for the mount-point claim runs: a volume group `sys`
and an old device claiming `/` plus one claiming `/data`. -/
def stClaim : St :=
  { core := { devicetree :=
      [{ name := "sys", devKind := "vg" },
       { name := "oldroot", devKind := "lv", fmtMountpoint := "/" },
       { name := "olddata", devKind := "partition", fmtMountpoint := "/data" }] } }

/-- Witness `logvol` line claiming `/` anew. -/
def lvClaimKS : LogVolDataKS :=
  { name := "root", vgname := "sys", mountpoint := "/", size := 4096 }

/-- Witness `part` line claiming `/data` anew. -/
def partClaimKS : PartDataKS := { mountpoint := "/data", size := 2048 }

/-- Final state of the witness logvol mount-point claim run. -/
def lvClaimFinal : St := exceptGetD (logVolExecute extT stClaim lvClaimKS) {}

/-- Final state of the witness partition mount-point claim run. -/
def partClaimFinal : St := exceptGetD (partDataExecute extT stClaim partClaimKS) {}

/-- State for the duplicate-placeholder raid runs: two partitions with
mdmember format. -/
def stRaid0 : St :=
  { core := { devicetree :=
      [{ name := "sda1", devKind := "partition", fmtType := "mdmember" },
       { name := "sda2", devKind := "partition", fmtType := "mdmember" }] } }

/-- First `raid` line registering placeholder `pv.01` for array `md0`. -/
def raidAKS : RaidDataKS := { device := "md0", mountpoint := "pv.01", members := ["sda1"] }

/-- Second `raid` line registering the same placeholder `pv.01` for
array `md1`. -/
def raidBKS : RaidDataKS := { device := "md1", mountpoint := "pv.01", members := ["sda2"] }

/-- State after the first raid run. -/
def stRaid1 : St := exceptGetD (raidDataExecute extT stRaid0 raidAKS) {}

/-- State after the second raid run. -/
def stRaid2 : St := exceptGetD (raidDataExecute extT stRaid1 raidBKS) {}

/-- Trace and result of the witness full orchestrator run. -/
def c3Run : List OrchStep × Except KSError St := doKickstartStorage extT stDisk ksEmpty

/-- Trace and result of the witness orchestrator run with one `part`
line. -/
def c10Run : List OrchStep × Except KSError St := doKickstartStorage extT stDisk ksOnePart

/-- Final state of the witness orchestrator run with one `part` line. -/
def c10Final : St := exceptGetD c10Run.2 {}

/-- Final state of the witness full orchestrator run. -/
def c3Final : St := exceptGetD c3Run.2 {}

/-- The preparation result of the second raid run (used to exhibit the
alias overwrite). -/
def raidBPre : RaidPre :=
  exceptGetD (raidPre extT stRaid1.core raidBKS)
    { core := {}, type := "", mountpoint := "", devicename := "" }

/-- Counterexample `part` line claiming `/data` as a tmpfs mount: the
tmpfs branch of `PartitionData.execute` creates the device without
running the mount-point claim block. -/
def partTmpfsKS : PartDataKS := { mountpoint := "/data", fstype := "tmpfs", size := 1024 }

/-- Final state of the tmpfs mount-point claim run. -/
def partTmpfsFinal : St := exceptGetD (partDataExecute extT stClaim partTmpfsKS) {}

/-- The preparation result of the witness logvol claim run. -/
def lvClaimPre : LVPre :=
  exceptGetD (logVolPre extT stClaim.core lvClaimKS)
    { core := {}, type := none, mountpoint := "", size := 0, grow := false,
      vg := { name := "" }, pool := none }

/-- The preparation result of the witness partition claim run. -/
def partClaimPre : PartPre :=
  exceptGetD (partDataPre extT stClaim.core partClaimKS)
    (mkPartPre {} "" none "" 0 false "" "")

/-- The core state the raid handler's placeholder branches produce:
autopart disabled and the label-to-devicename alias written. -/
def raidPlaceholderCore (core0 : CoreState) (mp dn : String) : CoreState :=
  { core0 with doAutoPart := false, onPart := setAssoc core0.onPart mp dn }

/-- Core state already holding the placeholder-named partition
`raid.01` (as a first `part raid.01` run leaves it). -/
def coreRaidDup : CoreState :=
  { devicetree := [{ name := "raid.01", devKind := "partition" }] }

/-- Witness `part` line registering placeholder `raid.01`. -/
def partRaidDupKS : PartDataKS := { mountpoint := "raid.01", size := 512 }

/-- Core state for the partition alias-overwrite run: two preexisting
partitions and the alias `pv.01` already mapped to `sda1`. -/
def corePvOnPart : CoreState :=
  { devicetree := [{ name := "sda1", devKind := "partition" },
                   { name := "sda2", devKind := "partition" }],
    onPart := [("pv.01", "sda1")] }

/-- Witness `part pv.01 --onpart sda2` line: re-registers the already
mapped label `pv.01`. -/
def partPvOnPartKS : PartDataKS := { mountpoint := "pv.01", onPart := "sda2", size := 0 }

/-- Witness member device carrying a non-member format. -/
def devWrongFmt : Dev := { name := "p2", devKind := "partition", fmtType := "ext4" }

/-! ## Helper lemmas -/

theorem registerAction_doAutoPart (c : CoreState) (a : DeviceAction) :
    (registerAction c a).doAutoPart = c.doAutoPart := rfl

theorem createDevice_doAutoPart (c : CoreState) (d : Dev) :
    (createDevice c d).doAutoPart = c.doAutoPart := rfl

theorem destroyDevice_doAutoPart (c : CoreState) (n : String) :
    (destroyDevice c n).doAutoPart = c.doAutoPart := rfl

theorem updateDevice_doAutoPart (c : CoreState) (n : String) (f : Dev → Dev) :
    (updateDevice c n f).doAutoPart = c.doAutoPart := rfl

theorem destroyPriorClaimant_doAutoPart (c : CoreState) (mp : String) :
    (destroyPriorClaimant c mp).doAutoPart = c.doAutoPart := by
  unfold destroyPriorClaimant
  split
  · split <;> rfl
  · rfl

theorem foldl_destroyDevice_doAutoPart (l : List Dev) (c : CoreState) :
    (l.foldl (fun c2 d => destroyDevice c2 d.name) c).doAutoPart = c.doAutoPart := by
  induction l generalizing c with
  | nil => rfl
  | cons hd tl ih => simpa using ih (destroyDevice c hd.name)

theorem removeExistingFormat_doAutoPart (c : CoreState) (d : Dev) :
    (removeExistingFormat c d).doAutoPart = c.doAutoPart := by
  unfold removeExistingFormat
  simp [registerAction_doAutoPart, foldl_destroyDevice_doAutoPart]

theorem registerCreateFormat_doAutoPart (c : CoreState) (n ty mp lb mo : String) :
    (registerCreateFormat c n ty mp lb mo).doAutoPart = c.doAutoPart := rfl

theorem registerResizeActions_doAutoPart (ext : Externals) (c : CoreState) (d : Dev) (s : Nat)
    (c2 : CoreState) (h : registerResizeActions ext c d s = .ok c2) :
    c2.doAutoPart = c.doAutoPart := by
  unfold registerResizeActions at h
  split at h <;> split at h <;> simp_all <;> subst h <;> rfl

theorem runSteps_trace_take (steps : List (OrchStep × (St → Except KSError St))) :
    ∀ st : St, ∃ k, (runSteps st steps).1 = (steps.map Prod.fst).take k := by
  induction steps with
  | nil => intro st; exact ⟨0, rfl⟩
  | cons hd tl ih =>
    intro st
    obtain ⟨lbl, f⟩ := hd
    cases h : f st with
    | error e => exact ⟨1, by simp [runSteps, h]⟩
    | ok st2 =>
      obtain ⟨k, hk⟩ := ih st2
      exact ⟨k + 1, by simp [runSteps, h, hk]⟩

theorem runSteps_ok_trace (steps : List (OrchStep × (St → Except KSError St))) :
    ∀ st st' : St, (runSteps st steps).2 = .ok st' →
      (runSteps st steps).1 = steps.map Prod.fst := by
  induction steps with
  | nil => intro st st' _; rfl
  | cons hd tl ih =>
    intro st st' h
    obtain ⟨lbl, f⟩ := hd
    cases h2 : f st with
    | error e => simp [runSteps, h2] at h
    | ok st2 =>
      simp only [runSteps, h2] at h ⊢
      simp [ih st2 st' h]

theorem orchestratorSteps_labels (ext : Externals) (ks : KSAll) :
    (orchestratorSteps ext ks).map Prod.fst =
      [.bootloader, .autopart, .partition, .raid, .volgroup, .logvol, .btrfs,
       .bootloaderFinal] := rfl

/-! ## Claim C3 -/

/-- C3: for every run, `doKickstartStorage` executes the storage steps
in exactly the fixed order clear-partitions, bootloader placement,
automatic partitioning, manual partitions, raid, volume groups, logical
volumes, BTRFS, bootloader finalization: the executed trace is always an
initial segment of that order, and a run that still has a usable disk
after clearing and ends without error executes exactly the full
order. -/
theorem orchestrator_fixed_order (ext : Externals) (st : St) (ks : KSAll) :
    (∃ k, (doKickstartStorage ext st ks).1 = fullOrder.take k)
    ∧ (anyEligibleDisk (clearPartExecute ext st ks.clearpart).core.devicetree = true →
        ∀ st', (doKickstartStorage ext st ks).2 = .ok st' →
          (doKickstartStorage ext st ks).1 = fullOrder) := by
  by_cases h : anyEligibleDisk (clearPartExecute ext st ks.clearpart).core.devicetree = true
  · have hrw : doKickstartStorage ext st ks =
        (OrchStep.clearpart ::
           (runSteps (clearPartExecute ext st ks.clearpart) (orchestratorSteps ext ks)).1,
         (runSteps (clearPartExecute ext st ks.clearpart) (orchestratorSteps ext ks)).2) := by
      unfold doKickstartStorage
      simp [h]
    constructor
    · obtain ⟨k, hk⟩ :=
        runSteps_trace_take (orchestratorSteps ext ks) (clearPartExecute ext st ks.clearpart)
      refine ⟨k + 1, ?_⟩
      rw [hrw]
      simp only [hk, orchestratorSteps_labels, fullOrder, List.take_succ_cons]
    · intro _ st' h2
      rw [hrw] at h2
      have h3 := runSteps_ok_trace (orchestratorSteps ext ks)
        (clearPartExecute ext st ks.clearpart) st' h2
      rw [hrw]
      simp only [h3, orchestratorSteps_labels, fullOrder]
  · have h0 : anyEligibleDisk (clearPartExecute ext st ks.clearpart).core.devicetree = false := by
      simpa using h
    have hrw : doKickstartStorage ext st ks =
        ([OrchStep.clearpart], .ok (clearPartExecute ext st ks.clearpart)) := by
      unfold doKickstartStorage
      simp [h0]
    constructor
    · exact ⟨1, by rw [hrw]; rfl⟩
    · intro hcontra
      rw [h0] at hcontra
      simp at hcontra

/-- Witness for C3: a concrete run with a usable disk and no storage
commands executes exactly the full fixed order. -/
theorem orchestrator_fixed_order_witness :
    anyEligibleDisk (clearPartExecute extT stDisk ksEmpty.clearpart).core.devicetree = true
    ∧ (doKickstartStorage extT stDisk ksEmpty).1 = fullOrder :=
  ⟨by decide,
   (orchestrator_fixed_order extT stDisk ksEmpty).2 (by decide) c3Final rfl⟩

/-! ## Claim C2 -/

/-- C2 counterexample: with every disk hidden, the run after clearing
executes no further step but finishes with a success value, not a
reportable error, refuting the claimed abort. -/
theorem no_eligible_disk_no_error :
    (doKickstartStorage extT stNoDisk ksEmpty).1 = [OrchStep.clearpart]
    ∧ exceptOk (doKickstartStorage extT stNoDisk ksEmpty).2 = true :=
  ⟨rfl, rfl⟩

/-- C2 amended: if no eligible disk remains after the clear-partitions
step, none of the subsequent orchestrator steps executes — the
orchestrator returns early with the post-clearing state and no error is
raised. -/
theorem no_eligible_disk_early_return (ext : Externals) (st : St) (ks : KSAll)
    (h : anyEligibleDisk (clearPartExecute ext st ks.clearpart).core.devicetree = false) :
    doKickstartStorage ext st ks =
      ([OrchStep.clearpart], .ok (clearPartExecute ext st ks.clearpart)) := by
  unfold doKickstartStorage
  simp [h]

/-- Witness for the amended C2 at a concrete hidden-disk state. -/
theorem no_eligible_disk_early_return_witness :
    doKickstartStorage extT stNoDisk ksEmpty =
      ([OrchStep.clearpart], .ok (clearPartExecute extT stNoDisk ksEmpty.clearpart)) :=
  no_eligible_disk_early_return extT stNoDisk ksEmpty (by decide)

/-! ## Claim C9 -/

/-- C9 counterexample: the spec `sda*` matches exactly one device of the
inventory and the resolver returns that singleton, but the direct lookup
of the spec has no match, so the singleton is not the direct lookup's
result. -/
theorem resolver_singleton_without_direct_lookup :
    deviceMatches ["/dev/sda", "/dev/sdb"] "sda*" = ["/dev/sda"]
    ∧ udevResolveDevspec ["/dev/sda", "/dev/sdb"] (normalizeSpec "sda*") = none :=
  ⟨by decide, by decide⟩

/-- C9 amended: over a duplicate-free inventory the resolver returns the
deduplicated union of the glob expansion and the direct lookup (so the
direct match appears at most once), the empty list — never an absent
marker, by its type — when nothing matches, and, when the direct lookup
succeeds and the overall result has exactly one element, exactly the
direct lookup's singleton. -/
theorem deviceMatches_resolver_spec (inv : List String) (spec : String) (hnd : inv.Nodup) :
    (deviceMatches inv spec).Nodup
    ∧ (udevResolveGlob inv (normalizeSpec spec) = [] ∧
        udevResolveDevspec inv (normalizeSpec spec) = none → deviceMatches inv spec = [])
    ∧ (∀ d, udevResolveDevspec inv (normalizeSpec spec) = some d →
        (deviceMatches inv spec).length = 1 → deviceMatches inv spec = [d]) := by
  refine ⟨?_, ?_, ?_⟩
  · simp only [deviceMatches]
    cases hdev : udevResolveDevspec inv (normalizeSpec spec) with
    | none => exact List.Nodup.filter _ hnd
    | some d =>
      by_cases hmem : d ∈ udevResolveGlob inv (normalizeSpec spec)
      · simp only [if_pos hmem]
        exact List.Nodup.filter _ hnd
      · simp only [if_neg hmem]
        rw [List.nodup_append]
        refine ⟨List.Nodup.filter _ hnd, List.nodup_singleton d, ?_⟩
        intro a ha hb
        rw [List.mem_singleton] at hb
        subst hb
        exact hmem ha
  · intro h
    simp [deviceMatches, h.1, h.2]
  · intro d hdev hlen
    simp only [deviceMatches, hdev] at hlen ⊢
    by_cases hmem : d ∈ udevResolveGlob inv (normalizeSpec spec)
    · simp only [if_pos hmem] at hlen ⊢
      obtain ⟨a, ha⟩ := List.length_eq_one.mp hlen
      rw [ha] at hmem ⊢
      rw [List.mem_singleton] at hmem
      rw [hmem]
    · simp only [if_neg hmem] at hlen ⊢
      rw [List.length_append, List.length_singleton] at hlen
      have h0 : udevResolveGlob inv (normalizeSpec spec) = [] :=
        List.eq_nil_of_length_eq_zero (by omega)
      rw [h0]
      rfl

/-- Witness for the amended C9: a literal spec naming the only inventory
device gives a duplicate-free result equal to the direct lookup's
singleton. -/
theorem deviceMatches_resolver_spec_witness :
    (deviceMatches ["/dev/sda"] "sda").Nodup
    ∧ deviceMatches ["/dev/sda"] "sda" = ["/dev/sda"] :=
  ⟨(deviceMatches_resolver_spec ["/dev/sda"] "sda" (by decide)).1,
   (deviceMatches_resolver_spec ["/dev/sda"] "sda" (by decide)).2.2 "/dev/sda"
     (by decide) (by decide)⟩

theorem getDeviceByName_mem {tree : List Dev} {n : String} {d : Dev}
    (h : getDeviceByName tree n = some d) : d ∈ tree :=
  List.mem_of_find?_eq_some h

theorem updateDevice_actions (c : CoreState) (n : String) (f : Dev → Dev) :
    (updateDevice c n f).actions = c.actions := rfl

theorem registerResizeActions_eq (ext : Externals) (c : CoreState) (dev : Dev) (size : Nat)
    (hv : ext.resizeActionsValid = true) :
    registerResizeActions ext c dev size = .ok { c with actions := c.actions ++
      (if size < dev.currentSize then
        [DeviceAction.resizeFormat dev.name size, DeviceAction.resizeDevice dev.name size]
       else
        [DeviceAction.resizeDevice dev.name size, DeviceAction.resizeFormat dev.name size]) } := by
  unfold registerResizeActions registerAction
  split <;> simp [hv, List.append_assoc]

theorem logVolPre_ok_core (ext : Externals) (core0 : CoreState) (self : LogVolDataKS)
    (pre : LVPre) (h : logVolPre ext core0 self = .ok pre) :
    pre.core = { core0 with doAutoPart := false } := by
  simp only [logVolPre] at h
  repeat' split at h
  all_goals
    first
    | (injection h with h2; rw [← h2])
    | simp at h

theorem logVolPre_ok_size (ext : Externals) (core0 : CoreState) (self : LogVolDataKS)
    (pre : LVPre) (h : logVolPre ext core0 self = .ok pre)
    (hrec : self.recommended = false) (hhib : self.hibernation = false) :
    pre.size = self.size := by
  simp only [logVolPre, hrec, hhib] at h
  repeat' split at h
  all_goals
    first
    | (injection h with h2; rw [← h2]; try simp_all)
    | simp at h

theorem charsStart_head {a : Char} {as l : List Char} (h : charsStart (a :: as) l = true) :
    ∃ t, l = a :: t := by
  cases l with
  | nil => simp [charsStart] at h
  | cons b bs =>
    simp only [charsStart, Bool.and_eq_true, decide_eq_true_eq] at h
    exact ⟨bs, by rw [h.1]⟩

theorem strStarts_head {s p : String} {a : Char} {ta : List Char}
    (hp : p.toList = a :: ta) (h : strStarts s p = true) : ∃ t, s.toList = a :: t := by
  unfold strStarts at h
  rw [hp] at h
  exact charsStart_head h

theorem strStarts_head_clash {s p q : String} {a b : Char} {ta tb : List Char}
    (hp : p.toList = a :: ta) (hq : q.toList = b :: tb) (hab : a ≠ b)
    (h1 : strStarts s p = true) (h2 : strStarts s q = true) : False := by
  obtain ⟨t1, ht1⟩ := strStarts_head hp h1
  obtain ⟨t2, ht2⟩ := strStarts_head hq h2
  rw [ht1] at ht2
  exact hab (List.cons.injEq _ _ _ _ ▸ ht2).1

theorem charsStart_append_self (xs : List Char) : ∀ ys, charsStart xs (xs ++ ys) = true := by
  induction xs with
  | nil => intro ys; rfl
  | cons a as ih => intro ys; simp [charsStart, ih]

theorem strStarts_append_self (p l : String) : strStarts (p ++ l) p = true := by
  unfold strStarts
  have hd : (p ++ l).toList = p.toList ++ l.toList := String.data_append p l
  rw [hd]
  exact charsStart_append_self p.toList l.toList

theorem ne_of_toList_head {s t : String} {a b : Char} {ta tb : List Char}
    (hs : s.toList = a :: ta) (ht : t.toList = b :: tb) (hab : a ≠ b) : s ≠ t := by
  intro h
  rw [h, ht] at hs
  exact hab ((List.cons.injEq _ _ _ _ ▸ hs).1).symm

theorem toList_append_cons {p l : String} {a : Char} {ta : List Char}
    (hp : p.toList = a :: ta) : (p ++ l).toList = a :: (ta ++ l.toList) := by
  have hd : (p ++ l).toList = p.toList ++ l.toList := String.data_append p l
  rw [hd, hp]
  rfl

theorem partDataPre_ok_facts (ext : Externals) (core0 : CoreState) (self : PartDataKS)
    (pre : PartPre) (h : partDataPre ext core0 self = .ok pre) :
    pre.core.actions = core0.actions ∧ pre.core.devicetree = core0.devicetree ∧
      pre.core.doAutoPart = false ∧
      (self.recommended = false → self.hibernation = false → pre.size = self.size) ∧
      (strStarts self.mountpoint "/" = true →
        pre.mountpoint = self.mountpoint ∧ pre.kwargsName = none) := by
  unfold partDataPre at h
  by_cases h1 : ¬self.onbiosdisk = "" ∧ partDataDisk ext self = ""
  · rw [if_pos h1] at h
    exact absurd h (by simp)
  · rw [if_neg h1] at h
    by_cases h2 : self.mountpoint = "swap"
    · rw [if_pos h2] at h
      by_cases h3 : (self.recommended || self.hibernation) = true
      · rw [if_pos h3] at h
        injection h with hh
        rw [← hh]
        refine ⟨rfl, rfl, rfl, ?_, ?_⟩
        · intro hrec hhib
          rw [hrec, hhib] at h3
          simp at h3
        · intro hs
          rw [h2] at hs
          exact absurd hs (by decide)
      · rw [if_neg h3] at h
        injection h with hh
        rw [← hh]
        refine ⟨rfl, rfl, rfl, fun _ _ => rfl, ?_⟩
        intro hs
        rw [h2] at hs
        exact absurd hs (by decide)
    · rw [if_neg h2] at h
      by_cases h4 : self.mountpoint = "None"
      · rw [if_pos h4] at h
        injection h with hh
        rw [← hh]
        refine ⟨rfl, rfl, rfl, fun _ _ => rfl, ?_⟩
        intro hs
        rw [h4] at hs
        exact absurd hs (by decide)
      · rw [if_neg h4] at h
        by_cases h5 : self.mountpoint = "appleboot"
        · rw [if_pos h5] at h
          injection h with hh
          rw [← hh]
          refine ⟨rfl, rfl, rfl, fun _ _ => rfl, ?_⟩
          intro hs
          rw [h5] at hs
          exact absurd hs (by decide)
        · rw [if_neg h5] at h
          by_cases h6 : self.mountpoint = "prepboot"
          · rw [if_pos h6] at h
            injection h with hh
            rw [← hh]
            refine ⟨rfl, rfl, rfl, fun _ _ => rfl, ?_⟩
            intro hs
            rw [h6] at hs
            exact absurd hs (by decide)
          · rw [if_neg h6] at h
            by_cases h7 : self.mountpoint = "biosboot"
            · rw [if_pos h7] at h
              injection h with hh
              rw [← hh]
              refine ⟨rfl, rfl, rfl, fun _ _ => rfl, ?_⟩
              intro hs
              rw [h7] at hs
              exact absurd hs (by decide)
            · rw [if_neg h7] at h
              by_cases h8 : strStarts self.mountpoint "raid." = true
              · rw [if_pos h8] at h
                by_cases h8a : (getDeviceByName core0.devicetree self.mountpoint).isSome = true
                · rw [if_pos h8a] at h
                  exact absurd h (by simp)
                · rw [if_neg h8a] at h
                  by_cases hop : self.onPart ≠ ""
                  · rw [if_pos hop] at h
                    injection h with hh
                    rw [← hh]
                    refine ⟨rfl, rfl, rfl, fun _ _ => rfl, ?_⟩
                    intro hs
                    exact absurd (strStarts_head_clash rfl rfl (by decide) h8 hs) (by simp)
                  · rw [if_neg hop] at h
                    injection h with hh
                    rw [← hh]
                    refine ⟨rfl, rfl, rfl, fun _ _ => rfl, ?_⟩
                    intro hs
                    exact absurd (strStarts_head_clash rfl rfl (by decide) h8 hs) (by simp)
              · rw [if_neg h8] at h
                by_cases h9 : strStarts self.mountpoint "pv." = true
                · rw [if_pos h9] at h
                  by_cases h9a : (getDeviceByName core0.devicetree self.mountpoint).isSome = true
                  · rw [if_pos h9a] at h
                    exact absurd h (by simp)
                  · rw [if_neg h9a] at h
                    by_cases hop : self.onPart ≠ ""
                    · rw [if_pos hop] at h
                      injection h with hh
                      rw [← hh]
                      refine ⟨rfl, rfl, rfl, fun _ _ => rfl, ?_⟩
                      intro hs
                      exact absurd (strStarts_head_clash rfl rfl (by decide) h9 hs) (by simp)
                    · rw [if_neg hop] at h
                      injection h with hh
                      rw [← hh]
                      refine ⟨rfl, rfl, rfl, fun _ _ => rfl, ?_⟩
                      intro hs
                      exact absurd (strStarts_head_clash rfl rfl (by decide) h9 hs) (by simp)
                · rw [if_neg h9] at h
                  by_cases h10 : strStarts self.mountpoint "btrfs." = true
                  · rw [if_pos h10] at h
                    by_cases h10a :
                        (getDeviceByName core0.devicetree self.mountpoint).isSome = true
                    · rw [if_pos h10a] at h
                      exact absurd h (by simp)
                    · rw [if_neg h10a] at h
                      by_cases hop : self.onPart ≠ ""
                      · rw [if_pos hop] at h
                        injection h with hh
                        rw [← hh]
                        refine ⟨rfl, rfl, rfl, fun _ _ => rfl, ?_⟩
                        intro hs
                        exact absurd (strStarts_head_clash rfl rfl (by decide) h10 hs) (by simp)
                      · rw [if_neg hop] at h
                        injection h with hh
                        rw [← hh]
                        refine ⟨rfl, rfl, rfl, fun _ _ => rfl, ?_⟩
                        intro hs
                        exact absurd (strStarts_head_clash rfl rfl (by decide) h10 hs) (by simp)
                  · rw [if_neg h10] at h
                    by_cases h11 : self.mountpoint = "/boot/efi"
                    · rw [if_pos h11] at h
                      by_cases h11a : ext.isMactel = true
                      · rw [if_pos h11a] at h
                        injection h with hh
                        rw [← hh]
                        exact ⟨rfl, rfl, rfl, fun _ _ => rfl, fun _ => ⟨rfl, rfl⟩⟩
                      · rw [if_neg h11a] at h
                        injection h with hh
                        rw [← hh]
                        exact ⟨rfl, rfl, rfl, fun _ _ => rfl, fun _ => ⟨rfl, rfl⟩⟩
                    · rw [if_neg h11] at h
                      injection h with hh
                      rw [← hh]
                      exact ⟨rfl, rfl, rfl, fun _ _ => rfl, fun _ => ⟨rfl, rfl⟩⟩

/-! ## Claim C1 -/

/-- C1: for a resize of a pre-existing device bound with do-not-format
(`--noformat --resize`), both the logical-volume handler and the
partition handler register exactly the pair resize-format then
resize-device when the requested size is strictly below the device's
current size, and exactly resize-device then resize-format otherwise. -/
theorem noformat_resize_action_order :
    (∀ (ext : Externals) (st : St) (self : LogVolDataKS) (st' : St),
      ext.resizeActionsValid = true → self.format = false → self.resize = true →
      self.recommended = false → self.hibernation = false →
      logVolExecute ext st self = .ok st' →
      ∃ dev, dev ∈ st.core.devicetree ∧
        st'.core.actions = st.core.actions ++
          (if self.size < dev.currentSize then
            [DeviceAction.resizeFormat dev.name self.size,
             DeviceAction.resizeDevice dev.name self.size]
           else
            [DeviceAction.resizeDevice dev.name self.size,
             DeviceAction.resizeFormat dev.name self.size]))
    ∧ (∀ (ext : Externals) (st : St) (self : PartDataKS) (st' : St),
      ext.resizeActionsValid = true → self.format = false → self.resize = true →
      self.recommended = false → self.hibernation = false →
      partDataExecute ext st self = .ok st' →
      ∃ dev, dev ∈ st.core.devicetree ∧
        st'.core.actions = st.core.actions ++
          (if self.size < dev.currentSize then
            [DeviceAction.resizeFormat dev.name self.size,
             DeviceAction.resizeDevice dev.name self.size]
           else
            [DeviceAction.resizeDevice dev.name self.size,
             DeviceAction.resizeFormat dev.name self.size])) := by
  constructor
  · intro ext st self st' hv hfmt hres hrec hhib h
    unfold logVolExecute at h
    cases hpre : logVolPre ext st.core self with
    | error e => rw [hpre] at h; exact absurd h (by simp)
    | ok pre =>
      rw [hpre] at h
      dsimp only [] at h
      rw [if_pos (show ¬ self.format = true by simp [hfmt])] at h
      cases hnf : logVolNoFormat ext pre self with
      | error e => rw [hnf] at h; exact absurd h (by simp)
      | ok core =>
        rw [hnf] at h
        injection h with h2
        have hcore := logVolPre_ok_core ext st.core self pre hpre
        have hsize := logVolPre_ok_size ext st.core self pre hpre hrec hhib
        have htree : pre.core.devicetree = st.core.devicetree := by rw [hcore]
        have hacts : pre.core.actions = st.core.actions := by rw [hcore]
        unfold logVolNoFormat at hnf
        split at hnf
        · exact absurd hnf (by simp)
        · cases hdev : getDeviceByName pre.core.devicetree (pre.vg.name ++ "-" ++ self.name) with
          | none => rw [hdev] at hnf; exact absurd hnf (by simp)
          | some dev =>
            rw [hdev] at hnf
            dsimp only [] at hnf
            rw [registerResizeActions_eq ext pre.core dev pre.size hv] at hnf
            dsimp only [] at hnf
            injection hnf with h3
            refine ⟨dev, ?_, ?_⟩
            · rw [htree] at hdev
              exact getDeviceByName_mem hdev
            · rw [← h2, ← h3, updateDevice_actions]
              show pre.core.actions ++ _ = _
              rw [hacts, hsize]
  · intro ext st self st' hv hfmt hres hrec hhib h
    unfold partDataExecute at h
    cases hpre : partDataPre ext st.core self with
    | error e => rw [hpre] at h; exact absurd h (by simp)
    | ok pre =>
      rw [hpre] at h
      dsimp only [] at h
      rw [if_pos (show ¬ self.format = true by simp [hfmt])] at h
      cases hnf : partDataNoFormat ext pre self with
      | error e => rw [hnf] at h; exact absurd h (by simp)
      | ok core =>
        rw [hnf] at h
        injection h with h2
        obtain ⟨hacts, htree, _, hsizef, _⟩ := partDataPre_ok_facts ext st.core self pre hpre
        have hsize := hsizef hrec hhib
        unfold partDataNoFormat at hnf
        split at hnf
        · exact absurd hnf (by simp)
        · cases hdev : resolveDevice pre.core.devicetree self.onPart with
          | none => rw [hdev] at hnf; exact absurd hnf (by simp)
          | some dev =>
            rw [hdev] at hnf
            dsimp only [] at hnf
            rw [registerResizeActions_eq ext pre.core dev pre.size hv] at hnf
            dsimp only [] at hnf
            injection hnf with h3
            refine ⟨dev, ?_, ?_⟩
            · rw [htree] at hdev
              exact getDeviceByName_mem hdev
            · rw [← h2, ← h3, updateDevice_actions]
              show pre.core.actions ++ _ = _
              rw [hacts, hsize]

/-- Witness for C1: concrete shrink resizes of a preexisting logical
volume and of a preexisting partition register the shrink pair. -/
theorem noformat_resize_action_order_witness :
    (∃ dev, dev ∈ stResize.core.devicetree ∧
      lvResizeFinal.core.actions = stResize.core.actions ++
        (if lvResizeKS.size < dev.currentSize then
          [DeviceAction.resizeFormat dev.name lvResizeKS.size,
           DeviceAction.resizeDevice dev.name lvResizeKS.size]
         else
          [DeviceAction.resizeDevice dev.name lvResizeKS.size,
           DeviceAction.resizeFormat dev.name lvResizeKS.size]))
    ∧ (∃ dev, dev ∈ stResize.core.devicetree ∧
      partResizeFinal.core.actions = stResize.core.actions ++
        (if partResizeKS.size < dev.currentSize then
          [DeviceAction.resizeFormat dev.name partResizeKS.size,
           DeviceAction.resizeDevice dev.name partResizeKS.size]
         else
          [DeviceAction.resizeDevice dev.name partResizeKS.size,
           DeviceAction.resizeFormat dev.name partResizeKS.size])) :=
  ⟨noformat_resize_action_order.1 extT stResize lvResizeKS lvResizeFinal
     rfl rfl rfl rfl rfl rfl,
   noformat_resize_action_order.2 extT stResize partResizeKS partResizeFinal
     rfl rfl rfl rfl rfl rfl⟩

theorem resizeStep_doAutoPart {ext : Externals} {c : CoreState} {r : Bool} {dev : Dev}
    {size : Nat} {c2 : CoreState}
    (h : (if r = true then registerResizeActions ext c dev size else Except.ok c) = .ok c2) :
    c2.doAutoPart = c.doAutoPart := by
  split at h
  · exact registerResizeActions_doAutoPart ext c dev size c2 h
  · injection h with h2
    rw [← h2]

theorem okOf_ite_register {c c2 : CoreState} {r v : Bool} {a : DeviceAction} {e : KSError}
    (h : (if r = true then
            (if v = true then Except.ok (registerAction c a) else Except.error e)
          else Except.ok c) = .ok c2) :
    c2.doAutoPart = c.doAutoPart := by
  split at h
  · split at h
    · injection h with h2
      rw [← h2]
      rfl
    · exact absurd h (by simp)
  · injection h with h2
    rw [← h2]

theorem logVolNoFormat_doAutoPart (ext : Externals) (pre : LVPre) (self : LogVolDataKS)
    (core : CoreState) (h : logVolNoFormat ext pre self = .ok core) :
    core.doAutoPart = pre.core.doAutoPart := by
  unfold logVolNoFormat at h
  repeat' split at h
  all_goals
    first
    | exact Except.noConfusion h
    | (injection h with h2; rw [← h2, updateDevice_doAutoPart];
       first
       | rfl
       | (apply resizeStep_doAutoPart; assumption))
    | (rw [← h, updateDevice_doAutoPart];
       first
       | rfl
       | (apply resizeStep_doAutoPart; assumption))

theorem partDataNoFormat_doAutoPart (ext : Externals) (pre : PartPre) (self : PartDataKS)
    (core : CoreState) (h : partDataNoFormat ext pre self = .ok core) :
    core.doAutoPart = pre.core.doAutoPart := by
  unfold partDataNoFormat at h
  repeat' split at h
  all_goals
    first
    | exact Except.noConfusion h
    | (injection h with h2; rw [← h2, updateDevice_doAutoPart];
       first
       | rfl
       | (apply resizeStep_doAutoPart; assumption))
    | (rw [← h, updateDevice_doAutoPart];
       first
       | rfl
       | (apply resizeStep_doAutoPart; assumption))

theorem raidNoFormat_doAutoPart (pre : RaidPre) (self : RaidDataKS)
    (core : CoreState) (h : raidNoFormat pre self = .ok core) :
    core.doAutoPart = pre.core.doAutoPart := by
  unfold raidNoFormat at h
  repeat' split at h
  all_goals
    first
    | exact Except.noConfusion h
    | (injection h with h2; rw [← h2, updateDevice_doAutoPart])
    | (rw [← h, updateDevice_doAutoPart])

theorem logVolCreate_doAutoPart (ext : Externals) (pre : LVPre) (self : LogVolDataKS)
    (res : CoreState × String) (h : logVolCreate ext pre self = .ok res) :
    res.1.doAutoPart = pre.core.doAutoPart := by
  unfold logVolCreate at h
  try dsimp only [] at h
  repeat' split at h
  all_goals
    first
    | exact Except.noConfusion h
    | (injection h with h2; rw [← h2]; try dsimp only [];
       simp only [registerCreateFormat_doAutoPart, createDevice_doAutoPart,
         destroyPriorClaimant_doAutoPart, removeExistingFormat_doAutoPart,
         updateDevice_doAutoPart, registerAction_doAutoPart];
       try first
       | rfl
       | (rw [okOf_ite_register (by assumption)];
          simp only [removeExistingFormat_doAutoPart]))
    | (rw [← h]; try dsimp only [];
       simp only [registerCreateFormat_doAutoPart, createDevice_doAutoPart,
         destroyPriorClaimant_doAutoPart, removeExistingFormat_doAutoPart,
         updateDevice_doAutoPart, registerAction_doAutoPart];
       try first
       | rfl
       | (rw [okOf_ite_register (by assumption)];
          simp only [removeExistingFormat_doAutoPart]))
    | (repeat' split at h; all_goals exact Except.noConfusion h)

theorem partDataCreate_doAutoPart (ext : Externals) (pre : PartPre) (self : PartDataKS)
    (res : CoreState × String) (h : partDataCreate ext pre self = .ok res) :
    res.1.doAutoPart = pre.core.doAutoPart := by
  unfold partDataCreate at h
  try dsimp only [] at h
  repeat' split at h
  all_goals
    first
    | exact Except.noConfusion h
    | (injection h with h2; rw [← h2]; try dsimp only [];
       simp only [registerCreateFormat_doAutoPart, createDevice_doAutoPart,
         destroyPriorClaimant_doAutoPart, removeExistingFormat_doAutoPart,
         updateDevice_doAutoPart, registerAction_doAutoPart];
       try first
       | rfl
       | (rw [okOf_ite_register (by assumption)];
          simp only [removeExistingFormat_doAutoPart]))
    | (rw [← h]; try dsimp only [];
       simp only [registerCreateFormat_doAutoPart, createDevice_doAutoPart,
         destroyPriorClaimant_doAutoPart, removeExistingFormat_doAutoPart,
         updateDevice_doAutoPart, registerAction_doAutoPart];
       try first
       | rfl
       | (rw [okOf_ite_register (by assumption)];
          simp only [removeExistingFormat_doAutoPart]))
    | (repeat' split at h; all_goals exact Except.noConfusion h)

theorem raidCreate_doAutoPart (ext : Externals) (pre : RaidPre) (self : RaidDataKS)
    (res : CoreState × String) (h : raidCreate ext pre self = .ok res) :
    res.1.doAutoPart = pre.core.doAutoPart := by
  unfold raidCreate at h
  try dsimp only [] at h
  repeat' split at h
  all_goals
    first
    | exact Except.noConfusion h
    | (injection h with h2; rw [← h2]; try dsimp only [];
       simp only [registerCreateFormat_doAutoPart, createDevice_doAutoPart,
         destroyPriorClaimant_doAutoPart, removeExistingFormat_doAutoPart,
         updateDevice_doAutoPart, registerAction_doAutoPart];
       try first
       | rfl
       | (rw [okOf_ite_register (by assumption)];
          simp only [removeExistingFormat_doAutoPart]))
    | (rw [← h]; try dsimp only [];
       simp only [registerCreateFormat_doAutoPart, createDevice_doAutoPart,
         destroyPriorClaimant_doAutoPart, removeExistingFormat_doAutoPart,
         updateDevice_doAutoPart, registerAction_doAutoPart];
       try first
       | rfl
       | (rw [okOf_ite_register (by assumption)];
          simp only [removeExistingFormat_doAutoPart]))
    | (repeat' split at h; all_goals exact Except.noConfusion h)

theorem encryptionBlock_core_doAutoPart (ext : Externals) (st : St) (target : String)
    (p c e : String) (b : Bool) (st' : St)
    (h : encryptionBlock ext st target p c e b = .ok st') :
    st'.core.doAutoPart = st.core.doAutoPart := by
  unfold encryptionBlock at h
  try dsimp only [] at h
  repeat' split at h
  all_goals
    first
    | exact Except.noConfusion h
    | (injection h with h2; rw [← h2]; try dsimp only [];
       try simp only [createDevice_doAutoPart, updateDevice_doAutoPart])
    | (rw [← h]; try dsimp only [];
       try simp only [createDevice_doAutoPart, updateDevice_doAutoPart])

theorem raidPre_doAutoPart (ext : Externals) (core0 : CoreState) (self : RaidDataKS)
    (pre : RaidPre) (h : raidPre ext core0 self = .ok pre) :
    pre.core.doAutoPart = false := by
  unfold raidPre at h
  try dsimp only [] at h
  repeat' split at h
  all_goals
    first
    | exact Except.noConfusion h
    | (injection h with h2; rw [← h2])
    | (rw [← h])

theorem volGroupExecute_doAutoPart (ext : Externals) (st : St) (self : VolGroupKS)
    (st' : St) (h : volGroupExecute ext st self = .ok st') :
    st'.core.doAutoPart = false := by
  unfold volGroupExecute at h
  try dsimp only [] at h
  repeat' split at h
  all_goals
    first
    | exact Except.noConfusion h
    | (injection h with h2; rw [← h2]; try dsimp only [];
       try simp only [createDevice_doAutoPart])
    | (rw [← h]; try dsimp only [];
       try simp only [createDevice_doAutoPart])

theorem btrfsDataExecute_doAutoPart (ext : Externals) (st : St) (self : BTRFSKS)
    (st' : St) (h : btrfsDataExecute ext st self = .ok st') :
    st'.core.doAutoPart = false := by
  unfold btrfsDataExecute at h
  try dsimp only [] at h
  repeat' split at h
  all_goals
    first
    | exact Except.noConfusion h
    | (injection h with h2; rw [← h2]; try dsimp only [];
       try simp only [createDevice_doAutoPart, updateDevice_doAutoPart,
         destroyPriorClaimant_doAutoPart])
    | (rw [← h]; try dsimp only [];
       try simp only [createDevice_doAutoPart, updateDevice_doAutoPart,
         destroyPriorClaimant_doAutoPart])

theorem logVolExecute_doAutoPart (ext : Externals) (st : St) (self : LogVolDataKS)
    (st' : St) (h : logVolExecute ext st self = .ok st') :
    st'.core.doAutoPart = false := by
  unfold logVolExecute at h
  cases hpre : logVolPre ext st.core self with
  | error e => rw [hpre] at h; exact Except.noConfusion h
  | ok pre =>
    rw [hpre] at h
    dsimp only [] at h
    have hdap : pre.core.doAutoPart = false := by
      rw [logVolPre_ok_core ext st.core self pre hpre]
    split at h
    · cases hnf : logVolNoFormat ext pre self with
      | error e => rw [hnf] at h; exact Except.noConfusion h
      | ok core =>
        rw [hnf] at h
        injection h with h2
        rw [← h2]
        show core.doAutoPart = false
        rw [logVolNoFormat_doAutoPart ext pre self core hnf, hdap]
    · cases hcr : logVolCreate ext pre self with
      | error e => rw [hcr] at h; exact Except.noConfusion h
      | ok res =>
        rw [hcr] at h
        dsimp only [] at h
        have hres : res.1.doAutoPart = false := by
          rw [logVolCreate_doAutoPart ext pre self res hcr, hdap]
        split at h
        · have := encryptionBlock_core_doAutoPart ext { st with core := res.1 } res.2
            self.passphrase self.cipher self.escrowcert self.backuppassphrase st' h
          rw [this]
          exact hres
        · injection h with h2
          rw [← h2]
          exact hres

theorem partDataExecute_doAutoPart (ext : Externals) (st : St) (self : PartDataKS)
    (st' : St) (h : partDataExecute ext st self = .ok st') :
    st'.core.doAutoPart = false := by
  unfold partDataExecute at h
  cases hpre : partDataPre ext st.core self with
  | error e => rw [hpre] at h; exact Except.noConfusion h
  | ok pre =>
    rw [hpre] at h
    dsimp only [] at h
    have hdap : pre.core.doAutoPart = false :=
      (partDataPre_ok_facts ext st.core self pre hpre).2.2.1
    split at h
    · cases hnf : partDataNoFormat ext pre self with
      | error e => rw [hnf] at h; exact Except.noConfusion h
      | ok core =>
        rw [hnf] at h
        injection h with h2
        rw [← h2]
        show core.doAutoPart = false
        rw [partDataNoFormat_doAutoPart ext pre self core hnf, hdap]
    · cases hcr : partDataCreate ext pre self with
      | error e => rw [hcr] at h; exact Except.noConfusion h
      | ok res =>
        rw [hcr] at h
        dsimp only [] at h
        have hres : res.1.doAutoPart = false := by
          rw [partDataCreate_doAutoPart ext pre self res hcr, hdap]
        split at h
        · have := encryptionBlock_core_doAutoPart ext { st with core := res.1 } res.2
            self.passphrase self.cipher self.escrowcert self.backuppassphrase st' h
          rw [this]
          exact hres
        · injection h with h2
          rw [← h2]
          exact hres

theorem raidDataExecute_doAutoPart (ext : Externals) (st : St) (self : RaidDataKS)
    (st' : St) (h : raidDataExecute ext st self = .ok st') :
    st'.core.doAutoPart = false := by
  unfold raidDataExecute at h
  cases hpre : raidPre ext st.core self with
  | error e => rw [hpre] at h; exact Except.noConfusion h
  | ok pre =>
    rw [hpre] at h
    dsimp only [] at h
    have hdap : pre.core.doAutoPart = false := raidPre_doAutoPart ext st.core self pre hpre
    split at h
    · cases hnf : raidNoFormat pre self with
      | error e => rw [hnf] at h; exact Except.noConfusion h
      | ok core =>
        rw [hnf] at h
        injection h with h2
        rw [← h2]
        show core.doAutoPart = false
        rw [raidNoFormat_doAutoPart pre self core hnf, hdap]
    · cases hcr : raidCreate ext pre self with
      | error e => rw [hcr] at h; exact Except.noConfusion h
      | ok res =>
        rw [hcr] at h
        dsimp only [] at h
        have hres : res.1.doAutoPart = false := by
          rw [raidCreate_doAutoPart ext pre self res hcr, hdap]
        split at h
        · have := encryptionBlock_core_doAutoPart ext { st with core := res.1 } res.2
            self.passphrase self.cipher self.escrowcert self.backuppassphrase st' h
          rw [this]
          exact hres
        · injection h with h2
          rw [← h2]
          exact hres

theorem foldlM_doAutoPart_false {α : Type} (f : St → α → Except KSError St)
    (hf : ∀ s a s2, f s a = .ok s2 → s2.core.doAutoPart = false) :
    ∀ (lst : List α) (st st' : St), List.foldlM f st lst = .ok st' →
      (lst = [] ∧ st' = st) ∨ st'.core.doAutoPart = false := by
  intro lst
  induction lst with
  | nil =>
    intro st st' h
    simp only [List.foldlM_nil] at h
    left
    refine ⟨rfl, ?_⟩
    injection h with h2
    rw [h2]
  | cons a as ih =>
    intro st st' h
    rw [List.foldlM_cons] at h
    cases hfa : f st a with
    | error e =>
      rw [hfa] at h
      dsimp only [bind, Except.bind] at h
      exact Except.noConfusion h
    | ok s1 =>
      rw [hfa] at h
      dsimp only [bind, Except.bind] at h
      cases ih s1 st' h with
      | inl hl =>
        right
        rw [hl.2]
        exact hf st a s1 hfa
      | inr hr => exact Or.inr hr

theorem partitionKindExecute_false (ext : Externals) (lst : List PartDataKS) (st st' : St)
    (h : partitionKindExecute ext lst st = .ok st') :
    (lst = [] ∧ st' = st) ∨ st'.core.doAutoPart = false := by
  unfold partitionKindExecute at h
  cases hf : List.foldlM (fun s p => partDataExecute ext s p) st lst with
  | error e => rw [hf] at h; exact Except.noConfusion h
  | ok st1 =>
    rw [hf] at h
    dsimp only [] at h
    have hfold := foldlM_doAutoPart_false (fun s p => partDataExecute ext s p)
      (fun s a s2 h2 => partDataExecute_doAutoPart ext s a s2 h2) lst st st1 hf
    split at h
    · injection h with h2
      rw [← h2]
      exact hfold
    · cases hdp : ext.doPartitioning st1.core.devicetree with
      | error e => rw [hdp] at h; exact Except.noConfusion h
      | ok tree =>
        rw [hdp] at h
        injection h with h2
        rw [← h2]
        cases hfold with
        | inl hl =>
          have hemp2 : lst.isEmpty = true := by rw [hl.1]; rfl
          simp_all
        | inr hr => exact Or.inr hr

theorem logVolKindExecute_false (ext : Externals) (lst : List LogVolDataKS) (st st' : St)
    (h : logVolKindExecute ext lst st = .ok st') :
    (lst = [] ∧ st' = st) ∨ st'.core.doAutoPart = false := by
  unfold logVolKindExecute at h
  cases hf : List.foldlM (fun s l => logVolExecute ext s l) st lst with
  | error e => rw [hf] at h; exact Except.noConfusion h
  | ok st1 =>
    rw [hf] at h
    dsimp only [] at h
    have hfold := foldlM_doAutoPart_false (fun s l => logVolExecute ext s l)
      (fun s a s2 h2 => logVolExecute_doAutoPart ext s a s2 h2) lst st st1 hf
    split at h
    · injection h with h2
      rw [← h2]
      exact hfold
    · cases hdp : ext.growLVM st1.core.devicetree with
      | error e => rw [hdp] at h; exact Except.noConfusion h
      | ok tree =>
        rw [hdp] at h
        injection h with h2
        rw [← h2]
        cases hfold with
        | inl hl =>
          have hemp2 : lst.isEmpty = true := by rw [hl.1]; rfl
          simp_all
        | inr hr => exact Or.inr hr

theorem raidKindExecute_false (ext : Externals) (lst : List RaidDataKS) (st st' : St)
    (h : raidKindExecute ext lst st = .ok st') :
    (lst = [] ∧ st' = st) ∨ st'.core.doAutoPart = false := by
  unfold raidKindExecute at h
  exact foldlM_doAutoPart_false (fun s r => raidDataExecute ext s r)
    (fun s a s2 h2 => raidDataExecute_doAutoPart ext s a s2 h2) lst st st' h

theorem volGroupKindExecute_false (ext : Externals) (lst : List VolGroupKS) (st st' : St)
    (h : volGroupKindExecute ext lst st = .ok st') :
    (lst = [] ∧ st' = st) ∨ st'.core.doAutoPart = false := by
  unfold volGroupKindExecute at h
  exact foldlM_doAutoPart_false (fun s v => volGroupExecute ext s v)
    (fun s a s2 h2 => volGroupExecute_doAutoPart ext s a s2 h2) lst st st' h

theorem btrfsKindExecute_false (ext : Externals) (lst : List BTRFSKS) (st st' : St)
    (h : btrfsKindExecute ext lst st = .ok st') :
    (lst = [] ∧ st' = st) ∨ st'.core.doAutoPart = false := by
  unfold btrfsKindExecute at h
  exact foldlM_doAutoPart_false (fun s b => btrfsDataExecute ext s b)
    (fun s a s2 h2 => btrfsDataExecute_doAutoPart ext s a s2 h2) lst st st' h

theorem matchStep_ok {g : Except KSError Unit} {s s1 : St}
    (h : (match g with
          | Except.error e => Except.error e
          | Except.ok _ => Except.ok s) = Except.ok s1) : s1 = s := by
  cases g with
  | error e => exact Except.noConfusion h
  | ok u =>
    injection h with h2
    rw [h2]

theorem runSteps_ok_cons {lbl : OrchStep} {f : St → Except KSError St}
    {rest : List (OrchStep × (St → Except KSError St))} {st st' : St}
    (h : (runSteps st ((lbl, f) :: rest)).2 = .ok st') :
    ∃ st1, f st = .ok st1 ∧ (runSteps st1 rest).2 = .ok st' := by
  unfold runSteps at h
  cases hf : f st with
  | error e => rw [hf] at h; exact Except.noConfusion h
  | ok s1 =>
    rw [hf] at h
    exact ⟨s1, rfl, h⟩

theorem runSteps_nil_ok {st st' : St} (h : (runSteps st []).2 = .ok st') : st' = st := by
  unfold runSteps at h
  injection h with h2
  rw [h2]

/-! ## Claim C10 -/

/-- C10: every successful execution of a partition, raid, logical-volume
or btrfs sub-item handler leaves the automatic-partitioning flag
`storage.doAutoPart` false, and in a full orchestrator run that keeps a
usable disk after clearing, the presence of any manual storage sub-item
forces the final state's flag to false — automatic partitioning stays
disabled for the remainder of the run. -/
theorem manual_subitem_disables_autopart :
    (∀ (ext : Externals) (st : St) (self : PartDataKS) (st' : St),
      partDataExecute ext st self = .ok st' → st'.core.doAutoPart = false)
    ∧ (∀ (ext : Externals) (st : St) (self : RaidDataKS) (st' : St),
      raidDataExecute ext st self = .ok st' → st'.core.doAutoPart = false)
    ∧ (∀ (ext : Externals) (st : St) (self : LogVolDataKS) (st' : St),
      logVolExecute ext st self = .ok st' → st'.core.doAutoPart = false)
    ∧ (∀ (ext : Externals) (st : St) (self : BTRFSKS) (st' : St),
      btrfsDataExecute ext st self = .ok st' → st'.core.doAutoPart = false)
    ∧ (∀ (ext : Externals) (st : St) (ks : KSAll) (tr : List OrchStep) (st' : St),
      doKickstartStorage ext st ks = (tr, .ok st') →
      anyEligibleDisk (clearPartExecute ext st ks.clearpart).core.devicetree = true →
      (ks.partition ≠ [] ∨ ks.raid ≠ [] ∨ ks.logvol ≠ [] ∨ ks.btrfs ≠ []) →
      st'.core.doAutoPart = false) := by
  refine ⟨partDataExecute_doAutoPart, raidDataExecute_doAutoPart,
    logVolExecute_doAutoPart, btrfsDataExecute_doAutoPart, ?_⟩
  intro ext st ks tr st' h helig hne
  unfold doKickstartStorage at h
  rw [if_neg (by simp [helig])] at h
  dsimp only [] at h
  rw [Prod.mk.injEq] at h
  replace h := h.2
  simp only [orchestratorSteps] at h
  obtain ⟨s1, hb, h⟩ := runSteps_ok_cons h
  obtain ⟨s2, hap, h⟩ := runSteps_ok_cons h
  obtain ⟨s3, hpart, h⟩ := runSteps_ok_cons h
  obtain ⟨s4, hraid, h⟩ := runSteps_ok_cons h
  obtain ⟨s5, hvg, h⟩ := runSteps_ok_cons h
  obtain ⟨s6, hlv, h⟩ := runSteps_ok_cons h
  obtain ⟨s7, hbt, h⟩ := runSteps_ok_cons h
  obtain ⟨s8, hfin, h⟩ := runSteps_ok_cons h
  have hst8 : st' = s8 := runSteps_nil_ok h
  have hst8s7 : s8 = s7 := matchStep_ok hfin
  have hp := partitionKindExecute_false ext ks.partition s2 s3 hpart
  have hr := raidKindExecute_false ext ks.raid s3 s4 hraid
  have hv := volGroupKindExecute_false ext ks.volgroup s4 s5 hvg
  have hl := logVolKindExecute_false ext ks.logvol s5 s6 hlv
  have hbtf := btrfsKindExecute_false ext ks.btrfs s6 s7 hbt
  rw [hst8, hst8s7]
  have propagate : ∀ {a b : St} {l : Prop},
      ((l ∧ b = a) ∨ b.core.doAutoPart = false) → a.core.doAutoPart = false →
      b.core.doAutoPart = false := by
    intro a b l hd ha
    cases hd with
    | inl hl2 => rw [hl2.2]; exact ha
    | inr hr2 => exact hr2
  have step_lv : s6.core.doAutoPart = false → s7.core.doAutoPart = false :=
    fun hx => propagate hbtf hx
  have step_vg : s5.core.doAutoPart = false → s7.core.doAutoPart = false :=
    fun hx => step_lv (propagate hl hx)
  have step_raid : s4.core.doAutoPart = false → s7.core.doAutoPart = false :=
    fun hx => step_vg (propagate hv hx)
  have step_part : s3.core.doAutoPart = false → s7.core.doAutoPart = false :=
    fun hx => step_raid (propagate hr hx)
  cases hne with
  | inl hpne =>
    cases hp with
    | inl hl2 => exact absurd hl2.1 hpne
    | inr hr2 => exact step_part hr2
  | inr hne2 =>
    cases hne2 with
    | inl hrne =>
      cases hr with
      | inl hl2 => exact absurd hl2.1 hrne
      | inr hr2 => exact step_raid hr2
    | inr hne3 =>
      cases hne3 with
      | inl hlne =>
        cases hl with
        | inl hl2 => exact absurd hl2.1 hlne
        | inr hr2 => exact step_lv hr2
      | inr hbne =>
        cases hbtf with
        | inl hl2 => exact absurd hl2.1 hbne
        | inr hr2 => exact hr2

/-- Witness for C10: the concrete single-partition run ends with
automatic partitioning disabled. -/
theorem manual_subitem_disables_autopart_witness :
    c10Final.core.doAutoPart = false :=
  manual_subitem_disables_autopart.2.2.2.2 extT stDisk ksOnePart c10Run.1 c10Final
    rfl (by decide) (Or.inl (by decide))

theorem encryptionBlock_passphrase (ext : Externals) (st : St) (target : String)
    (p c e : String) (b : Bool) (st' : St)
    (h : encryptionBlock ext st target p c e b = .ok st') :
    st'.encryptionPassphrase =
      (if p ≠ "" ∧ st.encryptionPassphrase = "" then p else st.encryptionPassphrase) := by
  unfold encryptionBlock at h
  try dsimp only [] at h
  repeat' split at h
  all_goals
    first
    | exact Except.noConfusion h
    | (injection h with h2; rw [← h2]; try dsimp only [];
       first
       | (split <;> simp_all)
       | simp_all
       | rfl)
    | (rw [← h]; try dsimp only [];
       first
       | (split <;> simp_all)
       | simp_all
       | rfl)

theorem partDataExecute_encPass (ext : Externals) (st : St) (self : PartDataKS)
    (st' : St) (h : partDataExecute ext st self = .ok st') :
    st'.encryptionPassphrase =
      (if self.encrypted = true ∧ self.format = true ∧ self.passphrase ≠ "" ∧
           st.encryptionPassphrase = "" then
        self.passphrase
       else st.encryptionPassphrase) := by
  unfold partDataExecute at h
  cases hpre : partDataPre ext st.core self with
  | error e => rw [hpre] at h; exact Except.noConfusion h
  | ok pre =>
    rw [hpre] at h
    dsimp only [] at h
    split at h
    · rename_i hnfmt
      cases hnf : partDataNoFormat ext pre self with
      | error e => rw [hnf] at h; exact Except.noConfusion h
      | ok core =>
        rw [hnf] at h
        injection h with h2
        rw [← h2]
        rw [if_neg (fun hc => hnfmt hc.2.1)]
    · rename_i hfmt2
      have hfmt : self.format = true := not_not.mp hfmt2
      cases hcr : partDataCreate ext pre self with
      | error e => rw [hcr] at h; exact Except.noConfusion h
      | ok res =>
        rw [hcr] at h
        dsimp only [] at h
        split at h
        · rename_i henc
          rw [encryptionBlock_passphrase ext { st with core := res.1 } res.2
            self.passphrase self.cipher self.escrowcert self.backuppassphrase st' h]
          simp only [henc, hfmt, true_and]
        · rename_i hencf
          injection h with h2
          rw [← h2]
          rw [if_neg (fun hc => hencf hc.1)]

theorem raidDataExecute_encPass (ext : Externals) (st : St) (self : RaidDataKS)
    (st' : St) (h : raidDataExecute ext st self = .ok st') :
    st'.encryptionPassphrase =
      (if self.encrypted = true ∧ self.format = true ∧ self.passphrase ≠ "" ∧
           st.encryptionPassphrase = "" then
        self.passphrase
       else st.encryptionPassphrase) := by
  unfold raidDataExecute at h
  cases hpre : raidPre ext st.core self with
  | error e => rw [hpre] at h; exact Except.noConfusion h
  | ok pre =>
    rw [hpre] at h
    dsimp only [] at h
    split at h
    · rename_i hnfmt
      cases hnf : raidNoFormat pre self with
      | error e => rw [hnf] at h; exact Except.noConfusion h
      | ok core =>
        rw [hnf] at h
        injection h with h2
        rw [← h2]
        rw [if_neg (fun hc => hnfmt hc.2.1)]
    · rename_i hfmt2
      have hfmt : self.format = true := not_not.mp hfmt2
      cases hcr : raidCreate ext pre self with
      | error e => rw [hcr] at h; exact Except.noConfusion h
      | ok res =>
        rw [hcr] at h
        dsimp only [] at h
        split at h
        · rename_i henc
          rw [encryptionBlock_passphrase ext { st with core := res.1 } res.2
            self.passphrase self.cipher self.escrowcert self.backuppassphrase st' h]
          simp only [henc, hfmt, true_and]
        · rename_i hencf
          injection h with h2
          rw [← h2]
          rw [if_neg (fun hc => hencf hc.1)]

theorem logVolExecute_encPass (ext : Externals) (st : St) (self : LogVolDataKS)
    (st' : St) (h : logVolExecute ext st self = .ok st') :
    st'.encryptionPassphrase =
      (if self.encrypted = true ∧ self.format = true ∧ self.passphrase ≠ "" ∧
           st.encryptionPassphrase = "" then
        self.passphrase
       else st.encryptionPassphrase) := by
  unfold logVolExecute at h
  cases hpre : logVolPre ext st.core self with
  | error e => rw [hpre] at h; exact Except.noConfusion h
  | ok pre =>
    rw [hpre] at h
    dsimp only [] at h
    split at h
    · rename_i hnfmt
      cases hnf : logVolNoFormat ext pre self with
      | error e => rw [hnf] at h; exact Except.noConfusion h
      | ok core =>
        rw [hnf] at h
        injection h with h2
        rw [← h2]
        rw [if_neg (fun hc => hnfmt hc.2.1)]
    · rename_i hfmt2
      have hfmt : self.format = true := not_not.mp hfmt2
      cases hcr : logVolCreate ext pre self with
      | error e => rw [hcr] at h; exact Except.noConfusion h
      | ok res =>
        rw [hcr] at h
        dsimp only [] at h
        split at h
        · rename_i henc
          rw [encryptionBlock_passphrase ext { st with core := res.1 } res.2
            self.passphrase self.cipher self.escrowcert self.backuppassphrase st' h]
          simp only [henc, hfmt, true_and]
        · rename_i hencf
          injection h with h2
          rw [← h2]
          rw [if_neg (fun hc => hencf hc.1)]

theorem subItemExec_encPass (ext : Externals) (st : St) (i : SubItem) (st' : St)
    (h : subItemExec ext st i = .ok st') :
    st'.encryptionPassphrase =
      (if itemEncrypted i = true ∧ itemFormat i = true ∧ itemPassphrase i ≠ "" ∧
           st.encryptionPassphrase = "" then
        itemPassphrase i
       else st.encryptionPassphrase) := by
  cases i with
  | part p => exact partDataExecute_encPass ext st p st' h
  | raid r => exact raidDataExecute_encPass ext st r st' h
  | logvol l => exact logVolExecute_encPass ext st l st' h

theorem foldlM_encPass_persist (ext : Externals) :
    ∀ (items : List SubItem) (st st' : St), st.encryptionPassphrase ≠ "" →
      List.foldlM (fun s i => subItemExec ext s i) st items = .ok st' →
      st'.encryptionPassphrase = st.encryptionPassphrase := by
  intro items
  induction items with
  | nil =>
    intro st st' _ h
    simp only [List.foldlM_nil] at h
    injection h with h2
    rw [h2]
  | cons i rest ih =>
    intro st st' hne h
    rw [List.foldlM_cons] at h
    cases hfa : subItemExec ext st i with
    | error e =>
      rw [hfa] at h
      dsimp only [bind, Except.bind] at h
      exact Except.noConfusion h
    | ok s1 =>
      rw [hfa] at h
      dsimp only [bind, Except.bind] at h
      have hs1 : s1.encryptionPassphrase = st.encryptionPassphrase := by
        rw [subItemExec_encPass ext st i s1 hfa]
        rw [if_neg (fun hc => hne hc.2.2.2)]
      rw [← hs1] at hne ⊢
      exact ih s1 st' hne h

theorem foldlM_encPass_first (ext : Externals) :
    ∀ (items : List SubItem) (st st' : St), st.encryptionPassphrase = "" →
      List.foldlM (fun s i => subItemExec ext s i) st items = .ok st' →
      st'.encryptionPassphrase = firstExplicitPassphrase items := by
  intro items
  induction items with
  | nil =>
    intro st st' h0 h
    simp only [List.foldlM_nil] at h
    injection h with h2
    rw [← h2, h0]
    rfl
  | cons i rest ih =>
    intro st st' h0 h
    rw [List.foldlM_cons] at h
    cases hfa : subItemExec ext st i with
    | error e =>
      rw [hfa] at h
      dsimp only [bind, Except.bind] at h
      exact Except.noConfusion h
    | ok s1 =>
      rw [hfa] at h
      dsimp only [bind, Except.bind] at h
      have hs1 := subItemExec_encPass ext st i s1 hfa
      by_cases hc : itemEncrypted i = true ∧ itemFormat i = true ∧ itemPassphrase i ≠ ""
      · have hs1v : s1.encryptionPassphrase = itemPassphrase i := by
          rw [hs1, if_pos ⟨hc.1, hc.2.1, hc.2.2, h0⟩]
        have hpers := foldlM_encPass_persist ext rest s1 st'
          (by rw [hs1v]; exact hc.2.2) h
        rw [hpers, hs1v]
        simp only [firstExplicitPassphrase]
        rw [if_pos hc]
      · have hs1v : s1.encryptionPassphrase = "" := by
          rw [hs1]
          rw [if_neg (fun hcc => hc ⟨hcc.1, hcc.2.1, hcc.2.2.1⟩), h0]
        have := ih s1 st' hs1v h
        rw [this]
        simp only [firstExplicitPassphrase]
        rw [if_neg hc]

/-! ## Claim C4 -/

/-- C4: starting a sub-item sequence with no run-wide default
passphrase, a successful run ends with `storage.encryptionPassphrase`
equal to the first explicit passphrase among the encryption requests
that reach the wrapping block (encrypted, to-be-formatted sub-items with
a passphrase), and — via the spec-modelled engine-side filling
`appliedPassphrase` — every later encryption request omitting its own
passphrase is wrapped with that first-seen passphrase. -/
theorem first_passphrase_becomes_default (ext : Externals) (items : List SubItem)
    (st st' : St) (h0 : st.encryptionPassphrase = "")
    (h : List.foldlM (fun s i => subItemExec ext s i) st items = .ok st') :
    st'.encryptionPassphrase = firstExplicitPassphrase items
    ∧ (∀ i : SubItem, itemEncrypted i = true → itemPassphrase i = "" →
        appliedPassphrase st'.encryptionPassphrase (itemPassphrase i) =
          firstExplicitPassphrase items) := by
  have h1 := foldlM_encPass_first ext items st st' h0 h
  refine ⟨h1, ?_⟩
  intro i _ hpass
  rw [hpass]
  unfold appliedPassphrase
  rw [if_pos rfl]
  exact h1

/-- Witness for C4: in the concrete run of an encrypted partition with
passphrase `abc123` followed by an encrypted logical volume with no
passphrase, the final default and the applied passphrase of the second
request are both `abc123`. -/
theorem first_passphrase_becomes_default_witness :
    c4Final.encryptionPassphrase = firstExplicitPassphrase c4Items
    ∧ appliedPassphrase c4Final.encryptionPassphrase (itemPassphrase (.logvol lvEncKS)) =
        firstExplicitPassphrase c4Items :=
  ⟨(first_passphrase_becomes_default extT c4Items stC4 c4Final rfl rfl).1,
   (first_passphrase_becomes_default extT c4Items stC4 c4Final rfl rfl).2
     (.logvol lvEncKS) (by decide) (by decide)⟩

/-! ## Claim C5 -/

theorem two_mem_two_le_length {α : Type} {x y : α} (hxy : x ≠ y) :
    ∀ {l : List α}, x ∈ l → y ∈ l → 2 ≤ l.length := by
  intro l
  induction l with
  | nil => intro hx _; exact absurd hx (List.not_mem_nil x)
  | cons a t ih =>
    intro hx hy
    rcases List.mem_cons.1 hx with hxa | hxt
    · rcases List.mem_cons.1 hy with hya | hyt
      · exact absurd (hxa.trans hya.symm) hxy
      · have := List.length_pos_of_mem hyt
        simp only [List.length_cons]
        omega
    · rcases List.mem_cons.1 hy with hya | hyt
      · have := List.length_pos_of_mem hxt
        simp only [List.length_cons]
        omega
      · have := ih hxt hyt
        simp only [List.length_cons]
        omega

theorem claimCount_createDevice (c : CoreState) (d : Dev) (mp : String) :
    claimCount (createDevice c d).devicetree mp =
      claimCount c.devicetree mp + (if d.fmtMountpoint == mp then 1 else 0) := by
  unfold claimCount createDevice
  simp [List.countP_append, List.countP_cons]

theorem destroyPriorClaimant_some (c : CoreState) (mp : String) (d : Dev) (hmp : mp ≠ "")
    (h : mountpointsLookup c.devicetree mp = some d) :
    destroyPriorClaimant c mp = destroyDevice c d.name := by
  unfold destroyPriorClaimant
  rw [if_pos hmp, h]

theorem destroyPriorClaimant_none (c : CoreState) (mp : String)
    (h : mountpointsLookup c.devicetree mp = none) :
    destroyPriorClaimant c mp = c := by
  unfold destroyPriorClaimant
  split
  · rw [h]
  · rfl

theorem claimCount_destroyPriorClaimant (c : CoreState) (mp : String) (hmp : mp ≠ "")
    (hle : claimCount c.devicetree mp ≤ 1) :
    claimCount (destroyPriorClaimant c mp).devicetree mp = 0 := by
  unfold destroyPriorClaimant
  rw [if_pos hmp]
  unfold mountpointsLookup
  cases hlu : List.find? (fun d => d.fmtMountpoint == mp) c.devicetree with
  | none =>
    dsimp only []
    unfold claimCount
    rw [List.countP_eq_zero]
    intro a ha
    exact List.find?_eq_none.1 hlu a ha
  | some d =>
    dsimp only []
    simp only [destroyDevice]
    unfold claimCount
    rw [List.countP_eq_zero]
    intro a ha hpa
    rw [List.mem_filter] at ha
    have had : a ∈ c.devicetree := ha.1
    have hane : a.name ≠ d.name := by simpa using ha.2
    have haned : a ≠ d := fun he => hane (by rw [he])
    have hd : d ∈ c.devicetree := List.mem_of_find?_eq_some hlu
    have hpd := List.find?_some hlu
    have hdf : d ∈ List.filter (fun d2 => d2.fmtMountpoint == mp) c.devicetree :=
      List.mem_filter.2 ⟨hd, hpd⟩
    have haf : a ∈ List.filter (fun d2 => d2.fmtMountpoint == mp) c.devicetree :=
      List.mem_filter.2 ⟨had, hpa⟩
    have h2 : 2 ≤ List.countP (fun d2 => d2.fmtMountpoint == mp) c.devicetree := by
      rw [List.countP_eq_length_filter]
      exact two_mem_two_le_length haned haf hdf
    unfold claimCount at hle
    omega

theorem logVolCreate_new_shape (ext : Externals) (pre : LVPre) (self : LogVolDataKS)
    (core' : CoreState) (tgt : String) (hpre : self.preexist = false)
    (h : logVolCreate ext pre self = .ok (core', tgt)) :
    ∃ req : Dev, core' = createDevice (destroyPriorClaimant pre.core pre.mountpoint) req ∧
      tgt = req.name ∧ req.fmtMountpoint = pre.mountpoint := by
  unfold logVolCreate at h
  try dsimp only [] at h
  repeat' split at h
  all_goals first
    | exact Except.noConfusion h
    | (injection h with h2;
       exact ⟨_, (congrArg Prod.fst h2).symm, (congrArg Prod.snd h2).symm, rfl⟩)
    | simp_all

theorem partDataCreate_new_shape (ext : Externals) (pre : PartPre) (self : PartDataKS)
    (core' : CoreState) (tgt : String) (honp : self.onPart = "")
    (htm : self.fstype ≠ "tmpfs")
    (h : partDataCreate ext pre self = .ok (core', tgt)) :
    ∃ req : Dev, core' = createDevice (destroyPriorClaimant pre.core pre.mountpoint) req ∧
      tgt = req.name ∧ req.fmtMountpoint = pre.mountpoint ∧
      req.name = pre.kwargsName.getD
        ("req" ++ toString (destroyPriorClaimant pre.core pre.mountpoint).nextID) := by
  unfold partDataCreate at h
  try dsimp only [] at h
  repeat' split at h
  all_goals first
    | exact Except.noConfusion h
    | (injection h with h2;
       exact ⟨_, (congrArg Prod.fst h2).symm, (congrArg Prod.snd h2).symm, rfl, rfl⟩)
    | simp_all

/-- C5 counterexample: a new (no `--onpart`), to-be-formatted tmpfs
`part` request with the nonempty mount point `/data` succeeds without
destroying the prior claimant `olddata` — the tmpfs branch of
`PartitionData.execute` skips the mount-point claim block — so after the
handler two devices claim `/data` and the at-most-one-claimant invariant
fails. -/
theorem tmpfs_claim_not_destroyed :
    partTmpfsKS.onPart = "" ∧ partTmpfsKS.format = true ∧
    claimCount stClaim.core.devicetree "/data" = 1 ∧
    partDataExecute extT stClaim partTmpfsKS = .ok partTmpfsFinal ∧
    claimCount partTmpfsFinal.core.devicetree "/data" = 2 :=
  ⟨rfl, rfl, by decide, rfl, by decide⟩

/-- C5 (amended): in the new-device branch of the logical-volume handler
and in the new-partition branch of the partition handler (no `--onpart`
and a filesystem type other than tmpfs, whose branch skips the claim
block), for a nonempty mount point: a prior claimant, when present, is
destroyed before the new device is created (the destroy action precedes
the create action in the registered action list), absence of a prior
claimant adds no destroy action and the creation still succeeds, and
when at most one device claimed the mount point beforehand exactly one —
the new device — claims it afterwards. -/
theorem mountpoint_claim_destroys_prior (ext : Externals) :
    (∀ (pre : LVPre) (self : LogVolDataKS) (core' : CoreState) (tgt : String),
      self.preexist = false → pre.mountpoint ≠ "" →
      logVolCreate ext pre self = .ok (core', tgt) →
      ((∀ d, mountpointsLookup pre.core.devicetree pre.mountpoint = some d →
          core'.actions =
            pre.core.actions ++ [.destroyDevice d.name, .createDevice tgt]) ∧
       (mountpointsLookup pre.core.devicetree pre.mountpoint = none →
          core'.actions = pre.core.actions ++ [.createDevice tgt]) ∧
       (claimCount pre.core.devicetree pre.mountpoint ≤ 1 →
          claimCount core'.devicetree pre.mountpoint = 1))) ∧
    (∀ (pre : PartPre) (self : PartDataKS) (core' : CoreState) (tgt : String),
      self.onPart = "" → self.fstype ≠ "tmpfs" → pre.mountpoint ≠ "" →
      partDataCreate ext pre self = .ok (core', tgt) →
      ((∀ d, mountpointsLookup pre.core.devicetree pre.mountpoint = some d →
          core'.actions =
            pre.core.actions ++ [.destroyDevice d.name, .createDevice tgt]) ∧
       (mountpointsLookup pre.core.devicetree pre.mountpoint = none →
          core'.actions = pre.core.actions ++ [.createDevice tgt]) ∧
       (claimCount pre.core.devicetree pre.mountpoint ≤ 1 →
          claimCount core'.devicetree pre.mountpoint = 1))) := by
  constructor
  · intro pre self core' tgt hpre hmp h
    obtain ⟨req, hc, ht, hm⟩ := logVolCreate_new_shape ext pre self core' tgt hpre h
    refine ⟨?_, ?_, ?_⟩
    · intro d hlu
      rw [hc, destroyPriorClaimant_some pre.core pre.mountpoint d hmp hlu, ht]
      simp [createDevice, destroyDevice, List.append_assoc]
    · intro hlu
      rw [hc, destroyPriorClaimant_none pre.core pre.mountpoint hlu, ht]
      simp [createDevice]
    · intro hle
      rw [hc, claimCount_createDevice,
          claimCount_destroyPriorClaimant pre.core pre.mountpoint hmp hle]
      simp [hm]
  · intro pre self core' tgt honp htm hmp h
    obtain ⟨req, hc, ht, hm, _⟩ := partDataCreate_new_shape ext pre self core' tgt honp htm h
    refine ⟨?_, ?_, ?_⟩
    · intro d hlu
      rw [hc, destroyPriorClaimant_some pre.core pre.mountpoint d hmp hlu, ht]
      simp [createDevice, destroyDevice, List.append_assoc]
    · intro hlu
      rw [hc, destroyPriorClaimant_none pre.core pre.mountpoint hlu, ht]
      simp [createDevice]
    · intro hle
      rw [hc, claimCount_createDevice,
          claimCount_destroyPriorClaimant pre.core pre.mountpoint hmp hle]
      simp [hm]

/-- Witness for the amended C5: the concrete claim runs over a tree
holding an old claimant of `/` and one of `/data` end with exactly one
claimant of each mount point. -/
theorem mountpoint_claim_destroys_prior_witness :
    claimCount (exceptGetD (logVolCreate extT lvClaimPre lvClaimKS) ({}, "")).1.devicetree
        lvClaimPre.mountpoint = 1 ∧
    claimCount (exceptGetD (partDataCreate extT partClaimPre partClaimKS) ({}, "")).1.devicetree
        partClaimPre.mountpoint = 1 := by
  constructor
  · exact ((mountpoint_claim_destroys_prior extT).1 lvClaimPre lvClaimKS
      (exceptGetD (logVolCreate extT lvClaimPre lvClaimKS) ({}, "")).1
      (exceptGetD (logVolCreate extT lvClaimPre lvClaimKS) ({}, "")).2
      rfl (by decide) rfl).2.2 (by decide)
  · exact ((mountpoint_claim_destroys_prior extT).2 partClaimPre partClaimKS
      (exceptGetD (partDataCreate extT partClaimPre partClaimKS) ({}, "")).1
      (exceptGetD (partDataCreate extT partClaimPre partClaimKS) ({}, "")).2
      rfl (by decide) (by decide) rfl).2.2 (by decide)

/-! ## Claim C6 -/

theorem ne_of_prefix_ne {s t p : String} (hs : strStarts s p = true)
    (ht : strStarts t p = false) : s ≠ t := by
  intro he
  rw [he] at hs
  rw [hs] at ht
  exact Bool.noConfusion ht

theorem strStarts_append_false {p l q : String} {a b : Char} {ta tb : List Char}
    (hp : p.toList = a :: ta) (hq : q.toList = b :: tb) (hab : b ≠ a) :
    strStarts (p ++ l) q = false := by
  unfold strStarts
  rw [toList_append_cons hp, hq]
  simp [charsStart, hab]

theorem find?_append_isSome {α : Type} (p : α → Bool) (l1 l2 : List α)
    (h : (List.find? p l2).isSome = true) : (List.find? p (l1 ++ l2)).isSome = true := by
  induction l1 with
  | nil => simpa using h
  | cons a t ih =>
    rw [List.cons_append, List.find?_cons]
    cases hpa : p a
    · simpa using ih
    · rfl

theorem getDeviceByName_append_self (tree : List Dev) (d : Dev) :
    (getDeviceByName (tree ++ [d]) d.name).isSome = true := by
  unfold getDeviceByName
  exact find?_append_isSome _ tree [d] (by simp [List.find?_cons])

/-- C6 counterexample: two raid lines registering the same placeholder
label `pv.01` for the distinct arrays `md0` and `md1` both succeed; the
second registration raises no error because the raid handler's duplicate
check looks for a device *named by the label*, while raid arrays enter
the tree under the array device name. -/
theorem raid_second_label_registration_not_rejected :
    raidAKS.mountpoint = raidBKS.mountpoint ∧
    raidDataExecute extT stRaid0 raidAKS = .ok stRaid1 ∧
    raidDataExecute extT stRaid1 raidBKS = .ok stRaid2 :=
  ⟨rfl, rfl, rfl⟩

/-- C6 (amended): the placeholder duplicate checks test whether a device
named by the label exists in the devicetree.  For the partition handler
this rejects a duplicate label (the first registration creates a device
named by the label, caught by the check of the second run); for the raid
handler the check passes whenever no device carries the label as its
name — regardless of an existing alias-table registration — so a second
raid registration of the same label is not rejected. -/
theorem placeholder_duplicate_check (ext : Externals) :
    (∀ (core0 : CoreState) (self : PartDataKS) (l : String),
      self.onbiosdisk = "" → self.mountpoint = "raid." ++ l →
      (getDeviceByName core0.devicetree self.mountpoint).isSome = true →
      partDataPre ext core0 self =
        .error (.kickstartValueError "RAID partition defined multiple times")) ∧
    (∀ (core0 : CoreState) (self : PartDataKS) (l : String),
      self.onbiosdisk = "" → self.mountpoint = "pv." ++ l →
      (getDeviceByName core0.devicetree self.mountpoint).isSome = true →
      partDataPre ext core0 self =
        .error (.kickstartValueError "PV partition defined multiple times")) ∧
    (∀ (core0 : CoreState) (self : PartDataKS) (l : String),
      self.onbiosdisk = "" → self.mountpoint = "btrfs." ++ l →
      (getDeviceByName core0.devicetree self.mountpoint).isSome = true →
      partDataPre ext core0 self =
        .error (.kickstartValueError "BTRFS partition defined multiple times")) ∧
    (∀ (pre : PartPre) (self : PartDataKS) (core' : CoreState) (tgt : String) (n : String),
      self.onPart = "" → self.fstype ≠ "tmpfs" → pre.kwargsName = some n →
      partDataCreate ext pre self = .ok (core', tgt) →
      tgt = n ∧ (getDeviceByName core'.devicetree n).isSome = true) ∧
    (∀ (core0 : CoreState) (self : RaidDataKS) (l : String),
      self.mountpoint = "pv." ++ l →
      (((getDeviceByName core0.devicetree self.mountpoint).isSome = true →
        raidPre ext core0 self =
          .error (.kickstartValueError "PV partition defined multiple times")) ∧
       ((getDeviceByName core0.devicetree self.mountpoint).isSome = false →
        ∃ dn, raidPre ext core0 self = .ok
          { core := raidPlaceholderCore core0 self.mountpoint dn,
            type := "lvmpv", mountpoint := "", devicename := dn }))) ∧
    (∀ (core0 : CoreState) (self : RaidDataKS) (l : String),
      self.mountpoint = "btrfs." ++ l →
      (((getDeviceByName core0.devicetree self.mountpoint).isSome = true →
        raidPre ext core0 self =
          .error (.kickstartValueError "BTRFS partition defined multiple times")) ∧
       ((getDeviceByName core0.devicetree self.mountpoint).isSome = false →
        ∃ dn, raidPre ext core0 self = .ok
          { core := raidPlaceholderCore core0 self.mountpoint dn,
            type := "btrfs", mountpoint := "", devicename := dn }))) := by
  refine ⟨?_, ?_, ?_, ?_, ?_, ?_⟩
  · intro core0 self l honb hm hdev
    rw [hm] at hdev
    unfold partDataPre
    dsimp only []
    rw [hm]
    rw [if_neg (fun hcc => hcc.1 honb)]
    rw [if_neg (ne_of_prefix_ne (strStarts_append_self "raid." l)
      (by decide : strStarts "swap" "raid." = false))]
    rw [if_neg (ne_of_prefix_ne (strStarts_append_self "raid." l)
      (by decide : strStarts "None" "raid." = false))]
    rw [if_neg (ne_of_prefix_ne (strStarts_append_self "raid." l)
      (by decide : strStarts "appleboot" "raid." = false))]
    rw [if_neg (ne_of_prefix_ne (strStarts_append_self "raid." l)
      (by decide : strStarts "prepboot" "raid." = false))]
    rw [if_neg (ne_of_prefix_ne (strStarts_append_self "raid." l)
      (by decide : strStarts "biosboot" "raid." = false))]
    rw [if_pos (strStarts_append_self "raid." l)]
    rw [if_pos hdev]
  · intro core0 self l honb hm hdev
    rw [hm] at hdev
    unfold partDataPre
    dsimp only []
    rw [hm]
    rw [if_neg (fun hcc => hcc.1 honb)]
    rw [if_neg (ne_of_prefix_ne (strStarts_append_self "pv." l)
      (by decide : strStarts "swap" "pv." = false))]
    rw [if_neg (ne_of_prefix_ne (strStarts_append_self "pv." l)
      (by decide : strStarts "None" "pv." = false))]
    rw [if_neg (ne_of_prefix_ne (strStarts_append_self "pv." l)
      (by decide : strStarts "appleboot" "pv." = false))]
    rw [if_neg (ne_of_prefix_ne (strStarts_append_self "pv." l)
      (by decide : strStarts "prepboot" "pv." = false))]
    rw [if_neg (ne_of_prefix_ne (strStarts_append_self "pv." l)
      (by decide : strStarts "biosboot" "pv." = false))]
    rw [if_neg (by simp [strStarts_append_false
      (by decide : "pv.".toList = 'p' :: ['v', '.'])
      (by decide : "raid.".toList = 'r' :: ['a', 'i', 'd', '.'])
      (by decide : 'r' ≠ 'p')])]
    rw [if_pos (strStarts_append_self "pv." l)]
    rw [if_pos hdev]
  · intro core0 self l honb hm hdev
    rw [hm] at hdev
    unfold partDataPre
    dsimp only []
    rw [hm]
    rw [if_neg (fun hcc => hcc.1 honb)]
    rw [if_neg (ne_of_prefix_ne (strStarts_append_self "btrfs." l)
      (by decide : strStarts "swap" "btrfs." = false))]
    rw [if_neg (ne_of_prefix_ne (strStarts_append_self "btrfs." l)
      (by decide : strStarts "None" "btrfs." = false))]
    rw [if_neg (ne_of_prefix_ne (strStarts_append_self "btrfs." l)
      (by decide : strStarts "appleboot" "btrfs." = false))]
    rw [if_neg (ne_of_prefix_ne (strStarts_append_self "btrfs." l)
      (by decide : strStarts "prepboot" "btrfs." = false))]
    rw [if_neg (ne_of_prefix_ne (strStarts_append_self "btrfs." l)
      (by decide : strStarts "biosboot" "btrfs." = false))]
    rw [if_neg (by simp [strStarts_append_false
      (by decide : "btrfs.".toList = 'b' :: ['t', 'r', 'f', 's', '.'])
      (by decide : "raid.".toList = 'r' :: ['a', 'i', 'd', '.'])
      (by decide : 'r' ≠ 'b')])]
    rw [if_neg (by simp [strStarts_append_false
      (by decide : "btrfs.".toList = 'b' :: ['t', 'r', 'f', 's', '.'])
      (by decide : "pv.".toList = 'p' :: ['v', '.'])
      (by decide : 'p' ≠ 'b')])]
    rw [if_pos (strStarts_append_self "btrfs." l)]
    rw [if_pos hdev]
  · intro pre self core' tgt n honp htm hk h
    obtain ⟨req, hc, ht, _, hname⟩ := partDataCreate_new_shape ext pre self core' tgt honp htm h
    have htn : tgt = n := by rw [ht, hname, hk]; rfl
    refine ⟨htn, ?_⟩
    rw [hc, ← htn, ht]
    exact getDeviceByName_append_self _ req
  · intro core0 self l hm
    constructor
    · intro hdev
      rw [hm] at hdev
      unfold raidPre
      dsimp only []
      rw [hm]
      rw [if_neg (ne_of_prefix_ne (strStarts_append_self "pv." l)
        (by decide : strStarts "swap" "pv." = false))]
      rw [if_pos (strStarts_append_self "pv." l)]
      rw [if_pos hdev]
    · intro hdev
      rw [hm] at hdev
      unfold raidPre
      dsimp only []
      rw [hm]
      rw [if_neg (ne_of_prefix_ne (strStarts_append_self "pv." l)
        (by decide : strStarts "swap" "pv." = false))]
      rw [if_pos (strStarts_append_self "pv." l)]
      rw [if_neg (by simp [hdev])]
      exact ⟨_, rfl⟩
  · intro core0 self l hm
    constructor
    · intro hdev
      rw [hm] at hdev
      unfold raidPre
      dsimp only []
      rw [hm]
      rw [if_neg (ne_of_prefix_ne (strStarts_append_self "btrfs." l)
        (by decide : strStarts "swap" "btrfs." = false))]
      rw [if_neg (by simp [strStarts_append_false
        (by decide : "btrfs.".toList = 'b' :: ['t', 'r', 'f', 's', '.'])
        (by decide : "pv.".toList = 'p' :: ['v', '.'])
        (by decide : 'p' ≠ 'b')])]
      rw [if_pos (strStarts_append_self "btrfs." l)]
      rw [if_pos hdev]
    · intro hdev
      rw [hm] at hdev
      unfold raidPre
      dsimp only []
      rw [hm]
      rw [if_neg (ne_of_prefix_ne (strStarts_append_self "btrfs." l)
        (by decide : strStarts "swap" "btrfs." = false))]
      rw [if_neg (by simp [strStarts_append_false
        (by decide : "btrfs.".toList = 'b' :: ['t', 'r', 'f', 's', '.'])
        (by decide : "pv.".toList = 'p' :: ['v', '.'])
        (by decide : 'p' ≠ 'b')])]
      rw [if_pos (strStarts_append_self "btrfs." l)]
      rw [if_neg (by simp [hdev])]
      exact ⟨_, rfl⟩

/-- Witness for the amended C6: with the placeholder-named partition
`raid.01` in the tree, a second `part raid.01` line is rejected; and the
first raid registration of `pv.01` over the member-only tree passes the
check. -/
theorem placeholder_duplicate_check_witness :
    partDataPre extT coreRaidDup partRaidDupKS =
      .error (.kickstartValueError "RAID partition defined multiple times") ∧
    (∃ dn, raidPre extT stRaid0.core raidAKS = .ok
      { core := raidPlaceholderCore stRaid0.core raidAKS.mountpoint dn,
        type := "lvmpv", mountpoint := "", devicename := dn }) := by
  constructor
  · exact (placeholder_duplicate_check extT).1 coreRaidDup partRaidDupKS "01"
      rfl (by decide) (by decide)
  · exact ((placeholder_duplicate_check extT).2.2.2.2.1 stRaid0.core raidAKS "01"
      (by decide)).2 (by decide)

/-! ## Claim C7 -/

theorem lookup_setAssoc (m : List (String × String)) (k v : String) :
    (setAssoc m k v).lookup k = some v := by
  induction m with
  | nil => simp [setAssoc, List.lookup]
  | cons kv rest ih =>
    obtain ⟨k2, v2⟩ := kv
    by_cases hk : k2 = k
    · simp [setAssoc, hk, List.lookup]
    · have hkk : (k == k2) = false := beq_eq_false_iff_ne.2 (fun h => hk h.symm)
      simp [setAssoc, hk, List.lookup, ih, hkk]

/-- C7 counterexample: after the first raid run the alias table maps
`pv.01` to `md0`; the second raid run succeeds and the mapping now reads
`md1` — the registered label was silently overwritten within one run. -/
theorem alias_mapping_silently_overwritten :
    stRaid1.core.onPart.lookup "pv.01" = some "md0" ∧
    raidDataExecute extT stRaid1 raidBKS = .ok stRaid2 ∧
    stRaid2.core.onPart.lookup "pv.01" = some "md1" :=
  ⟨by decide, rfl, by decide⟩

/-- C7 (amended): the alias table gives a registered label no
protection of its own.  A later `pv.<label>` registration that passes
the devicetree check (no device named by the label) replaces the
mapping without any error: the raid handler rebinds the label to the
new array's device name — writing the entry even before its duplicate
check runs — and the partition handler with `--onpart` rebinds it to
the new `--onpart` value.  Rejection happens only through the
devicetree, never through the alias table. -/
theorem alias_overwrite_semantics (ext : Externals) :
    (∀ (core0 : CoreState) (self : RaidDataKS) (l : String),
      self.mountpoint = "pv." ++ l →
      (getDeviceByName core0.devicetree self.mountpoint).isSome = false →
      ∃ pre, raidPre ext core0 self = .ok pre ∧
        pre.core.onPart.lookup self.mountpoint = some pre.devicename) ∧
    (∀ (core0 : CoreState) (self : PartDataKS) (l : String),
      self.onbiosdisk = "" → self.mountpoint = "pv." ++ l → self.onPart ≠ "" →
      (getDeviceByName core0.devicetree self.mountpoint).isSome = false →
      ∃ pre, partDataPre ext core0 self = .ok pre ∧
        pre.core.onPart.lookup self.mountpoint = some self.onPart) := by
  constructor
  · intro core0 self l hm hdev
    rw [hm] at hdev
    unfold raidPre
    dsimp only []
    rw [hm]
    rw [if_neg (ne_of_prefix_ne (strStarts_append_self "pv." l)
      (by decide : strStarts "swap" "pv." = false))]
    rw [if_pos (strStarts_append_self "pv." l)]
    rw [if_neg (by simp [hdev])]
    refine ⟨_, rfl, ?_⟩
    dsimp only []
    exact lookup_setAssoc core0.onPart ("pv." ++ l) _
  · intro core0 self l honb hm honp hdev
    rw [hm] at hdev
    unfold partDataPre
    dsimp only []
    rw [hm]
    rw [if_neg (fun hcc => hcc.1 honb)]
    rw [if_neg (ne_of_prefix_ne (strStarts_append_self "pv." l)
      (by decide : strStarts "swap" "pv." = false))]
    rw [if_neg (ne_of_prefix_ne (strStarts_append_self "pv." l)
      (by decide : strStarts "None" "pv." = false))]
    rw [if_neg (ne_of_prefix_ne (strStarts_append_self "pv." l)
      (by decide : strStarts "appleboot" "pv." = false))]
    rw [if_neg (ne_of_prefix_ne (strStarts_append_self "pv." l)
      (by decide : strStarts "prepboot" "pv." = false))]
    rw [if_neg (ne_of_prefix_ne (strStarts_append_self "pv." l)
      (by decide : strStarts "biosboot" "pv." = false))]
    rw [if_neg (by simp [strStarts_append_false
      (by decide : "pv.".toList = 'p' :: ['v', '.'])
      (by decide : "raid.".toList = 'r' :: ['a', 'i', 'd', '.'])
      (by decide : 'r' ≠ 'p')])]
    rw [if_pos (strStarts_append_self "pv." l)]
    rw [if_neg (by simp [hdev])]
    rw [if_pos honp]
    refine ⟨_, rfl, ?_⟩
    dsimp only [mkPartPre]
    exact lookup_setAssoc core0.onPart ("pv." ++ l) _

/-- Witness for the amended C7: the concrete second raid run rebinds
`pv.01` from `md0` to `md1`, and the concrete `part pv.01 --onpart sda2`
run rebinds `pv.01` from `sda1` to `sda2`, both without error. -/
theorem alias_overwrite_semantics_witness :
    (∃ pre, raidPre extT stRaid1.core raidBKS = .ok pre ∧
      pre.core.onPart.lookup raidBKS.mountpoint = some pre.devicename) ∧
    (∃ pre, partDataPre extT corePvOnPart partPvOnPartKS = .ok pre ∧
      pre.core.onPart.lookup partPvOnPartKS.mountpoint = some partPvOnPartKS.onPart) := by
  constructor
  · exact (alias_overwrite_semantics extT).1 stRaid1.core raidBKS "01" (by decide) (by decide)
  · exact (alias_overwrite_semantics extT).2 corePvOnPart partPvOnPartKS "01"
      rfl (by decide) (by decide) (by decide)

/-! ## Claim C8 -/

/-- C8 counterexample: the unresolved-member failure and the
wrong-format failure of the raid member check are both raised as
`KickstartValueError` — their exception classes are equal, so the two
failures are not distinguishable error kinds. -/
theorem member_errors_same_class :
    raidMemberCheck [] [] "p1" =
      .error (.kickstartValueError
        "Tried to use undefined partition p1 in RAID specification") ∧
    raidMemberCheck [devWrongFmt] [] "p2" =
      .error (.kickstartValueError "RAID member p2 has incorrect format (ext4)") ∧
    (KSError.kickstartValueError
        "Tried to use undefined partition p1 in RAID specification").kind =
      (KSError.kickstartValueError "RAID member p2 has incorrect format (ext4)").kind :=
  ⟨rfl, rfl, rfl⟩

/-- C8 (amended): for the raid, volume-group and btrfs member checks, an
unresolved member raises `KickstartValueError` with a
"Tried to use undefined partition" message, a resolved member whose
format differs from the required membership format raises
`KickstartValueError` with a "has incorrect format" message, and every
error either check raises carries the same exception class
(`valueError`): the two failures differ only in message, not in kind. -/
theorem member_check_error_classes (tree : List Dev) (onPart : List (String × String))
    (m : String) :
    (resolveMemberDev tree onPart m = none →
      raidMemberCheck tree onPart m = .error (.kickstartValueError
        ("Tried to use undefined partition " ++ m ++ " in RAID specification")) ∧
      vgPVCheck tree onPart m = .error (.kickstartValueError
        ("Tried to use undefined partition " ++ m ++ " in Volume Group specification")) ∧
      btrfsMemberCheck tree onPart m = .error (.kickstartValueError
        ("Tried to use undefined partition " ++ m ++ " in BTRFS volume specification"))) ∧
    (∀ d, resolveMemberDev tree onPart m = some d →
      (d.fmtType ≠ "mdmember" →
        raidMemberCheck tree onPart m = .error (.kickstartValueError
          ("RAID member " ++ m ++ " has incorrect format (" ++ d.fmtType ++ ")"))) ∧
      (d.fmtType ≠ "lvmpv" →
        vgPVCheck tree onPart m = .error (.kickstartValueError
          ("Physical Volume " ++ m ++ " has incorrect format (" ++ d.fmtType ++ ")"))) ∧
      (d.fmtType ≠ "btrfs" →
        btrfsMemberCheck tree onPart m = .error (.kickstartValueError
          ("BTRFS partition " ++ m ++ " has incorrect format (" ++ d.fmtType ++ ")")))) ∧
    (∀ e : KSError,
      (raidMemberCheck tree onPart m = .error e ∨ vgPVCheck tree onPart m = .error e ∨
        btrfsMemberCheck tree onPart m = .error e) →
      e.kind = KSErrorKind.valueError) := by
  refine ⟨?_, ?_, ?_⟩
  · intro h
    refine ⟨?_, ?_, ?_⟩
    · unfold raidMemberCheck
      rw [h]
    · unfold vgPVCheck
      rw [h]
    · unfold btrfsMemberCheck
      rw [h]
  · intro d h
    refine ⟨?_, ?_, ?_⟩
    · intro hf
      unfold raidMemberCheck
      rw [h]
      dsimp only []
      rw [if_pos hf]
    · intro hf
      unfold vgPVCheck
      rw [h]
      dsimp only []
      rw [if_pos hf]
    · intro hf
      unfold btrfsMemberCheck
      rw [h]
      dsimp only []
      rw [if_pos hf]
  · intro e he
    rcases he with h | h | h
    · unfold raidMemberCheck at h
      repeat' split at h
      all_goals first
        | exact Except.noConfusion h
        | (injection h with h2; rw [← h2]; rfl)
    · unfold vgPVCheck at h
      repeat' split at h
      all_goals first
        | exact Except.noConfusion h
        | (injection h with h2; rw [← h2]; rfl)
    · unfold btrfsMemberCheck at h
      repeat' split at h
      all_goals first
        | exact Except.noConfusion h
        | (injection h with h2; rw [← h2]; rfl)

/-- Witness for the amended C8: concrete unresolved and wrong-format
member errors of the three checks, all of class `valueError`. -/
theorem member_check_error_classes_witness :
    raidMemberCheck [] [] "p1" = .error (.kickstartValueError
      ("Tried to use undefined partition " ++ "p1" ++ " in RAID specification")) ∧
    vgPVCheck [devWrongFmt] [] "p2" = .error (.kickstartValueError
      ("Physical Volume " ++ "p2" ++ " has incorrect format (" ++ "ext4" ++ ")")) ∧
    (KSError.kickstartValueError
      ("Tried to use undefined partition " ++ "p1" ++ " in RAID specification")).kind =
      KSErrorKind.valueError := by
  refine ⟨?_, ?_, ?_⟩
  · exact ((member_check_error_classes [] [] "p1").1 rfl).1
  · exact (((member_check_error_classes [devWrongFmt] [] "p2").2.1 devWrongFmt rfl).2.1
      (by decide))
  · exact (member_check_error_classes [] [] "p1").2.2 _
      (Or.inl ((member_check_error_classes [] [] "p1").1 rfl).1)
